import Mathlib

/-!
Verification development for the outbound call-center core of the
Centro-de-control backend: the dialer engine (manual, progressive and
predictive strategies), the AMI origination gateway, lead-queue selection,
campaign lifecycle, agent state, DNC enforcement and disposition handling.

The definitions below are a shallow embedding of the Python source:
  - app/models/voip.py            (data model and status enums)
  - app/services/dialer_engine.py (dialer strategies, lead queue, stats)
  - app/services/ami_manager.py   (origination gateway)
  - app/api/v1/endpoints/voip.py  (campaign lifecycle, agent status,
                                   dispositions, manual-call endpoint)

Database rows become structures, the session becomes an explicit DB value,
SQLAlchemy queries become list filters (with order_by + first() rendered as
a leftmost-minimum selection), timestamps become integers, and the external
telephony protocol becomes an explicit environment value describing whether
the library is installed, the transport fails, or the exchange answers.

Naming follows the source, with one forced rename: the campaign column
predictive_ratio is embedded as predictive_factor.
-/

namespace CentroControl

/-- Status enum for agents, mirroring AgentStatus in app/models/voip.py. -/
inductive AgentStatus
  | offline
  | available
  | busy
  | ringing
  | on_call
  | wrap_up
  | paused
deriving DecidableEq, Repr, Inhabited

/-- Status enum for campaigns, mirroring CampaignStatus in app/models/voip.py. -/
inductive CampaignStatus
  | draft
  | running
  | paused
  | completed
  | stopped
deriving DecidableEq, Repr, Inhabited

/-- Dialer mode enum, mirroring DialerMode in app/models/voip.py. -/
inductive DialerMode
  | manual
  | progressive
  | predictive
deriving DecidableEq, Repr, Inhabited

/-- Status enum for campaign leads, mirroring CampaignLeadStatus. -/
inductive CampaignLeadStatus
  | pending
  | dialing
  | contacted
  | no_answer
  | busy
  | failed
  | dnc
  | scheduled
  | completed
  | abandoned
deriving DecidableEq, Repr, Inhabited

/-- A PBX node row (pbx_nodes table); connection fields are omitted since
they only feed the network layer, which is modelled by ProtoEnv. -/
structure PbxNode where
  id : Nat
  cuenta_id : Nat
  activo : Bool
deriving DecidableEq, Repr, Inhabited

/-- A SIP trunk row (sip_trunks table); dialPrefix embeds the column
named prefix in the source. -/
structure SipTrunk where
  id : Nat
  nombre : String
  dialPrefix : Option String
  strip_digits : Nat
  caller_id : Option String
deriving DecidableEq, Repr, Inhabited

/-- An agent row (agents table). -/
structure Agent where
  id : Nat
  cuenta_id : Nat
  pbx_node_id : Option Nat
  extension : String
  estado : AgentStatus
  pause_reason : Option String
  current_call_id : Option Nat
  activo : Bool
deriving DecidableEq, Repr, Inhabited

/-- A disposition row (dispositions table). -/
structure Disposition where
  id : Nat
  cuenta_id : Nat
  codigo : String
  es_contacto : Bool
  es_final : Bool
  requiere_reagendamiento : Bool
deriving DecidableEq, Repr, Inhabited

/-- A campaign row (campaigns table). Times of day are minutes (Nat),
weekdays 1..7; predictive_factor embeds the float predictive_ratio
column as a rational. -/
structure Campaign where
  id : Nat
  cuenta_id : Nat
  trunk_id : Option Nat
  pbx_node_id : Option Nat
  dialer_mode : DialerMode
  caller_id : Option String
  estado : CampaignStatus
  hora_inicio : Option Nat
  hora_fin : Option Nat
  dias_semana : Option (List Nat)
  max_concurrent_calls : Nat
  max_retries : Nat
  retry_delay_minutes : Nat
  ring_timeout : Nat
  predictive_factor : ℚ
  total_leads : Nat
  leads_contacted : Nat
  leads_pending : Nat
deriving DecidableEq, Repr, Inhabited

/-- A campaign-agent assignment row (campaign_agents table). -/
structure CampaignAgent where
  campaign_id : Nat
  agent_id : Nat
deriving DecidableEq, Repr, Inhabited

/-- A campaign lead row (campaign_leads table). -/
structure CampaignLead where
  id : Nat
  campaign_id : Nat
  lead_id : Nat
  telefono : String
  estado : CampaignLeadStatus
  intentos : Nat
  ultimo_intento : Option Int
  proximo_intento : Option Int
  disposition_id : Option Nat
  disposition_nota : Option String
  callback_at : Option Int
  assigned_agent_id : Option Nat
  created_at : Int
deriving DecidableEq, Repr, Inhabited

/-- A call record row (call_records table). -/
structure CallRecord where
  id : Nat
  cuenta_id : Nat
  campaign_id : Option Nat
  campaign_lead_id : Option Nat
  agent_id : Option Nat
  trunk_id : Option Nat
  uniqueid : Option String
  caller_id : Option String
  destino : String
  extension : Option String
  started_at : Option Int
  ended_at : Option Int
  resultado : String
  disposition_id : Option Nat
  disposition_nota : Option String
  direccion : String
deriving DecidableEq, Repr, Inhabited

/-- A call event row (call_events table); detalle is flattened to a list of
key-value string pairs. -/
structure CallEvent where
  call_record_id : Nat
  evento : String
  detalle : List (String × String)
deriving DecidableEq, Repr, Inhabited

/-- A do-not-call entry row (dnc_entries table). -/
structure DncEntry where
  cuenta_id : Nat
  telefono : String
deriving DecidableEq, Repr, Inhabited

/-- The database session state: one list per table, plus a fresh-id counter
standing in for uuid generation of new CallRecord rows. -/
structure DB where
  agents : List Agent
  campaigns : List Campaign
  campaign_agents : List CampaignAgent
  campaign_leads : List CampaignLead
  call_records : List CallRecord
  call_events : List CallEvent
  dnc_entries : List DncEntry
  pbx_nodes : List PbxNode
  sip_trunks : List SipTrunk
  dispositions : List Disposition
  next_id : Nat
deriving DecidableEq, Repr, Inhabited

/-- Leftmost minimum of a list under an integer key: the embedding of an
SQL query with order_by(key) followed by first(). -/
def firstMinBy {α : Type} (key : α → Int) : List α → Option α
  | [] => none
  | x :: xs =>
    match firstMinBy key xs with
    | none => some x
    | some y => if key x ≤ key y then some x else some y

/-- Result structure returned by AMIManager.originate_call. -/
structure OriginateResult where
  success : Bool
  uniqueid : Option String
  message : String
  call_record_id : Option Nat
deriving DecidableEq, Repr, Inhabited

/-- A raw AMI response dict, keeping the keys originate_call reads. -/
structure AmiResponse where
  response : String
  amiUniqueid : Option String
  amiMessage : Option String
deriving DecidableEq, Repr, Inhabited

/-- Environment of one _send_originate invocation: the panoramisk library
may be missing (ImportError), the transport may raise (caught inside
_send_originate), the exchange may answer, or an exception may escape into
originate_call's outer except block. -/
inductive ProtoEnv
  | libMissing
  | transportError (msg : String)
  | answered (resp : AmiResponse)
  | raises (msg : String)
deriving DecidableEq, Repr, Inhabited

/-- Embedding of AMIManager._send_originate: ImportError yields the mock
success dict with a generated mock- identifier; a transport exception is
caught and becomes an Error dict; otherwise the exchange's response is
returned. The Except error case models an exception escaping to the
caller. -/
def send_originate (proto : ProtoEnv) (mockId : String) : Except String AmiResponse :=
  match proto with
  | .libMissing =>
      .ok { response := "Success"
          , amiUniqueid := some ("mock-" ++ mockId)
          , amiMessage := some "Originate successfully queued (mock)" }
  | .transportError msg => .ok { response := "Error", amiUniqueid := none, amiMessage := some msg }
  | .answered resp => .ok resp
  | .raises msg => .error msg

/-- Python-style or-chain on optional strings: an empty string is falsy. -/
def orStr (a b : Option String) : Option String :=
  match a with
  | some s => if s = "" then b else some s
  | none => b

/-- Node resolution at the top of originate_call: the agent's node, then the
campaign's node, then any active node of the tenant. -/
def resolveNode (db : DB) (cuenta_id : Nat) (agent : Agent) (campaign : Option Campaign) :
    Option PbxNode :=
  let n1 : Option PbxNode :=
    match agent.pbx_node_id with
    | some nid => db.pbx_nodes.find? (fun n => decide (n.id = nid))
    | none => none
  let n2 : Option PbxNode :=
    match n1 with
    | some n => some n
    | none =>
      match campaign with
      | some c =>
        match c.pbx_node_id with
        | some nid => db.pbx_nodes.find? (fun n => decide (n.id = nid))
        | none => none
      | none => none
  match n2 with
  | some n => some n
  | none => db.pbx_nodes.find? (fun n => decide (n.cuenta_id = cuenta_id ∧ n.activo = true))

/-- Trunk resolution in originate_call: the explicit argument, else the
campaign's configured trunk. -/
def resolveTrunk (db : DB) (campaign : Option Campaign) (trunkArg : Option SipTrunk) :
    Option SipTrunk :=
  match trunkArg with
  | some t => some t
  | none =>
    match campaign with
    | some c =>
      match c.trunk_id with
      | some tid => db.sip_trunks.find? (fun t => decide (t.id = tid))
      | none => none
    | none => none

/-- Dial-string rewriting in originate_call: strip strip_digits then prepend
the trunk prefix when a trunk is present. -/
def dialNumberOf (trunk : Option SipTrunk) (destino : String) : String :=
  match trunk with
  | some t =>
    let stripped := if t.strip_digits > 0 then destino.drop t.strip_digits else destino
    match t.dialPrefix with
    | some p => if p = "" then stripped else p ++ stripped
    | none => stripped
  | none => destino

/-- Channel string built in originate_call. -/
def channelOf (trunk : Option SipTrunk) (destino : String) : String :=
  match trunk with
  | some t => "PJSIP/" ++ dialNumberOf trunk destino ++ "@" ++ t.nombre
  | none => "PJSIP/" ++ dialNumberOf trunk destino ++ "@outbound"

/-- Effective caller id precedence in originate_call: explicit override, then
campaign override, then trunk default, then the raw destination. -/
def effectiveCallerId (trunk : Option SipTrunk) (campaign : Option Campaign)
    (callerIdArg : Option String) (destino : String) : String :=
  match trunk with
  | some t =>
    (orStr callerIdArg (orStr (match campaign with | some c => c.caller_id | none => none) t.caller_id)).getD destino
  | none => callerIdArg.getD destino

/-- Pre-protocol state mutation of originate_call: create the CallRecord and
its originate CallEvent, mark the agent ringing with the call bound, and,
when a campaign lead is given, mark it dialing, bump intentos and stamp
ultimo_intento; this is committed before the protocol is contacted. -/
def originateSetup (db : DB) (now : Int) (cuenta_id : Nat) (agent : Agent)
    (destino : String) (campaign : Option Campaign) (campaignLead : Option CampaignLead)
    (trunk : Option SipTrunk) (callerIdArg : Option String) : DB × Nat :=
  let crId := db.next_id
  let cr : CallRecord :=
    { id := crId
    , cuenta_id := cuenta_id
    , campaign_id := campaign.map (fun c => c.id)
    , campaign_lead_id := campaignLead.map (fun cl => cl.id)
    , agent_id := some agent.id
    , trunk_id := trunk.map (fun t => t.id)
    , uniqueid := none
    , caller_id := some (effectiveCallerId trunk campaign callerIdArg destino)
    , destino := destino
    , extension := some agent.extension
    , started_at := some now
    , ended_at := none
    , resultado := "pending"
    , disposition_id := none
    , disposition_nota := none
    , direccion := "outbound" }
  let ev : CallEvent :=
    { call_record_id := crId
    , evento := "originate"
    , detalle := [("channel", channelOf trunk destino), ("extension", agent.extension),
                  ("caller_id", effectiveCallerId trunk campaign callerIdArg destino)] }
  let db1 : DB :=
    { db with
      call_records := db.call_records ++ [cr]
    , call_events := db.call_events ++ [ev]
    , next_id := db.next_id + 1
    , agents := db.agents.map (fun a =>
        if a.id = agent.id then
          { a with estado := AgentStatus.ringing, current_call_id := some crId }
        else a)
    , campaign_leads :=
        match campaignLead with
        | none => db.campaign_leads
        | some cl => db.campaign_leads.map (fun l =>
            if l.id = cl.id then
              { l with estado := CampaignLeadStatus.dialing
                     , intentos := l.intentos + 1
                     , ultimo_intento := some now
                     , assigned_agent_id := some agent.id }
            else l) }
  (db1, crId)

/-- Failure rollback of originate_call, shared by the Error-response branch
and the exception branch: mark the record failed and ended, append a failed
CallEvent with the error detail, release the agent to available with the
call unbound, and mark the lead failed when present. -/
def originateFail (db : DB) (crId : Nat) (now : Int) (agent : Agent)
    (campaignLead : Option CampaignLead) (errMsg : String) : OriginateResult × DB :=
  let db2 : DB :=
    { db with
      call_records := db.call_records.map (fun r =>
        if r.id = crId then { r with resultado := "failed", ended_at := some now } else r)
    , agents := db.agents.map (fun a =>
        if a.id = agent.id then
          { a with estado := AgentStatus.available, current_call_id := none }
        else a)
    , campaign_leads :=
        match campaignLead with
        | none => db.campaign_leads
        | some cl => db.campaign_leads.map (fun l =>
            if l.id = cl.id then { l with estado := CampaignLeadStatus.failed } else l)
    , call_events := db.call_events ++
        [{ call_record_id := crId, evento := "failed", detalle := [("error", errMsg)] }] }
  ({ success := false, uniqueid := none, message := errMsg, call_record_id := some crId }, db2)

/-- Embedding of AMIManager.originate_call. Resolves a PBX node (absence is
an immediate non-success with no state change), resolves the trunk, commits
the pre-protocol state, then invokes the protocol: a Success response
stores the uniqueid on the record; an Error response or an exception takes
the failure rollback path; either way a result is returned, never an
exception. -/
def originate_call (db : DB) (proto : ProtoEnv) (mockId : String) (now : Int)
    (cuenta_id : Nat) (agent : Agent) (destino : String)
    (campaign : Option Campaign) (campaignLead : Option CampaignLead)
    (trunkArg : Option SipTrunk) (callerIdArg : Option String) :
    OriginateResult × DB :=
  match resolveNode db cuenta_id agent campaign with
  | none =>
    ({ success := false, uniqueid := none, message := "No active PBX node found"
     , call_record_id := none }, db)
  | some _node =>
    let trunk := resolveTrunk db campaign trunkArg
    let setup := originateSetup db now cuenta_id agent destino campaign campaignLead trunk callerIdArg
    let db1 := setup.1
    let crId := setup.2
    match send_originate proto mockId with
    | .error e => originateFail db1 crId now agent campaignLead ("AMI connection error: " ++ e)
    | .ok resp =>
      if resp.response = "Success" then
        ({ success := true, uniqueid := resp.amiUniqueid
         , message := "Call originated successfully", call_record_id := some crId },
         { db1 with call_records := db1.call_records.map (fun r =>
             if r.id = crId then { r with uniqueid := resp.amiUniqueid } else r) })
      else
        originateFail db1 crId now agent campaignLead ((resp.amiMessage).getD "Unknown AMI error")

/-- DNC lookup: exact match on tenant and phone (dnc_entries query). -/
def isDnc (db : DB) (cuenta_id : Nat) (telefono : String) : Bool :=
  db.dnc_entries.any (fun e => decide (e.cuenta_id = cuenta_id ∧ e.telefono = telefono))

/-- Mark one campaign lead as dnc, as done on a DNC hit before refusing. -/
def markLeadDnc (db : DB) (clId : Nat) : DB :=
  { db with campaign_leads := db.campaign_leads.map (fun l =>
      if l.id = clId then { l with estado := CampaignLeadStatus.dnc } else l) }

/-- Tail of manual_call after agent and lead have been found: resolves the
lead's campaign, checks the DNC list (a hit marks the lead dnc and
refuses) and the retry budget, and hands over to originate_call. -/
def manual_call_with_lead (db : DB) (proto : ProtoEnv) (mockId : String) (now : Int)
    (cuenta_id : Nat) (agent : Agent) (cl : CampaignLead) : OriginateResult × DB :=
  match db.campaigns.find? (fun c => decide (c.id = cl.campaign_id)) with
  | none =>
    ({ success := false, uniqueid := none, message := "Campaign not found"
     , call_record_id := none }, db)
  | some campaign =>
    if isDnc db cuenta_id cl.telefono then
      ({ success := false, uniqueid := none, message := "Number is on DNC list"
       , call_record_id := none }, markLeadDnc db cl.id)
    else if campaign.max_retries ≤ cl.intentos then
      ({ success := false, uniqueid := none, message := "Max retries reached for this lead"
       , call_record_id := none }, db)
    else
      originate_call db proto mockId now cuenta_id agent cl.telefono
        (some campaign) (some cl) none none

/-- Tail of manual_call after the agent has been found: rejects an agent
outside available and wrap_up, then resolves the lead. -/
def manual_call_with_agent (db : DB) (proto : ProtoEnv) (mockId : String) (now : Int)
    (cuenta_id : Nat) (agent : Agent) (campaign_lead_id : Nat) : OriginateResult × DB :=
  if agent.estado ≠ AgentStatus.available ∧ agent.estado ≠ AgentStatus.wrap_up then
    ({ success := false, uniqueid := none, message := "Agent is not available"
     , call_record_id := none }, db)
  else
    match db.campaign_leads.find? (fun l => decide (l.id = campaign_lead_id)) with
    | none =>
      ({ success := false, uniqueid := none, message := "Campaign lead not found"
       , call_record_id := none }, db)
    | some cl => manual_call_with_lead db proto mockId now cuenta_id agent cl

/-- Embedding of dialer_engine.manual_call: validates the agent (found,
active, available or wrap_up), the lead, the lead's campaign, the DNC list
(a hit marks the lead dnc and refuses), and the retry budget, then hands
over to originate_call. -/
def manual_call (db : DB) (proto : ProtoEnv) (mockId : String) (now : Int)
    (cuenta_id : Nat) (agent_id : Nat) (campaign_lead_id : Nat) :
    OriginateResult × DB :=
  match db.agents.find? (fun a => decide (a.id = agent_id ∧ a.cuenta_id = cuenta_id ∧ a.activo = true)) with
  | none =>
    ({ success := false, uniqueid := none, message := "Agent not found or inactive"
     , call_record_id := none }, db)
  | some agent =>
    manual_call_with_agent db proto mockId now cuenta_id agent campaign_lead_id

/-- SQL comparison of a nullable timestamp column against now: NULL makes
the predicate false. -/
def isDue (t : Option Int) (now : Int) : Bool :=
  match t with
  | some v => decide (v ≤ now)
  | none => false

/-- Tier 1 of the lead-queue query: scheduled leads of the campaign whose
callback time is due. -/
def dueCallbacks (db : DB) (campaign : Campaign) (now : Int) : List CampaignLead :=
  db.campaign_leads.filter (fun l =>
    decide (l.campaign_id = campaign.id ∧ l.estado = CampaignLeadStatus.scheduled) &&
    isDue l.callback_at now)

/-- Tier 2 of the lead-queue query: no_answer, busy or failed leads with
attempts under max_retries whose next-eligible time is due. -/
def dueRetries (db : DB) (campaign : Campaign) (now : Int) : List CampaignLead :=
  db.campaign_leads.filter (fun l =>
    decide (l.campaign_id = campaign.id ∧
      (l.estado = CampaignLeadStatus.no_answer ∨ l.estado = CampaignLeadStatus.busy ∨
       l.estado = CampaignLeadStatus.failed) ∧
      l.intentos < campaign.max_retries) &&
    isDue l.proximo_intento now)

/-- Tier 3 of the lead-queue query: pending leads of the campaign. -/
def pendingLeads (db : DB) (campaign : Campaign) : List CampaignLead :=
  db.campaign_leads.filter (fun l => decide
    (l.campaign_id = campaign.id ∧ l.estado = CampaignLeadStatus.pending))

/-- Embedding of dialer_engine.get_next_lead: due callbacks (earliest
callback first), then due retries (earliest eligible first), then pending
leads (oldest enrolled first). -/
def get_next_lead (db : DB) (campaign : Campaign) (now : Int) : Option CampaignLead :=
  match firstMinBy (fun l => l.callback_at.getD 0) (dueCallbacks db campaign now) with
  | some l => some l
  | none =>
    match firstMinBy (fun l => l.proximo_intento.getD 0) (dueRetries db campaign now) with
    | some l => some l
    | none => firstMinBy (fun l => l.created_at) (pendingLeads db campaign)

/-- Embedding of dialer_engine.get_available_agents: active agents assigned
to the campaign whose state is available. -/
def get_available_agents (db : DB) (campaign_id : Nat) : List Agent :=
  db.agents.filter (fun a => decide
    ((∃ ca ∈ db.campaign_agents, ca.campaign_id = campaign_id ∧ ca.agent_id = a.id) ∧
     a.activo = true ∧ a.estado = AgentStatus.available))

/-- Embedding of dialer_engine.get_active_calls_count: leads of the campaign
currently in state dialing. -/
def get_active_calls_count (db : DB) (campaign_id : Nat) : Nat :=
  (db.campaign_leads.filter (fun l => decide
    (l.campaign_id = campaign_id ∧ l.estado = CampaignLeadStatus.dialing))).length

/-- Embedding of dialer_engine.is_campaign_in_schedule; localTime is the
current time of day and localDow the ISO weekday, both already evaluated in
the campaign's timezone (the zoneinfo lookup is environmental). A missing
start or end time means always-on. -/
def is_campaign_in_schedule (campaign : Campaign) (localTime : Nat) (localDow : Nat) : Bool :=
  match campaign.hora_inicio, campaign.hora_fin with
  | some hi, some hf =>
    let dowBlocked :=
      match campaign.dias_semana with
      | some ds => decide (ds ≠ []) && !(ds.contains localDow)
      | none => false
    if dowBlocked then false else decide (hi ≤ localTime ∧ localTime ≤ hf)
  | _, _ => true

/-- Loop body sequence of run_progressive_dialer: one candidate per agent in
the truncated available list, skipping and marking DNC hits (consuming that
agent slot), otherwise originating through the gateway; k indexes the
protocol environment per originate. -/
def progLoop (campaign : Campaign) (now : Int) (proto : Nat → ProtoEnv)
    (mockId : Nat → String) :
    DB → List Agent → Nat → List OriginateResult → List OriginateResult × DB
  | db, [], _, acc => (acc, db)
  | db, agent :: rest, k, acc =>
    match get_next_lead db campaign now with
    | none => (acc, db)
    | some lead =>
      if isDnc db campaign.cuenta_id lead.telefono then
        progLoop campaign now proto mockId (markLeadDnc db lead.id) rest k acc
      else
        let step := originate_call db (proto k) (mockId k) now campaign.cuenta_id agent
          lead.telefono (some campaign) (some lead) none none
        progLoop campaign now proto mockId step.2 rest (k + 1) (acc ++ [step.1])

/-- Embedding of dialer_engine.run_progressive_dialer: gates on campaign
state and schedule, computes the remaining concurrency room and runs one
candidate per available agent up to that room. -/
def run_progressive_dialer (db : DB) (campaign : Campaign) (now : Int)
    (localTime localDow : Nat) (proto : Nat → ProtoEnv) (mockId : Nat → String) :
    List OriginateResult × DB :=
  if campaign.estado ≠ CampaignStatus.running then ([], db)
  else if !is_campaign_in_schedule campaign localTime localDow then ([], db)
  else
    let available := get_available_agents db campaign.id
    if available.isEmpty then ([], db)
    else
      let active_calls := get_active_calls_count db campaign.id
      if campaign.max_concurrent_calls ≤ active_calls then ([], db)
      else
        progLoop campaign now proto mockId db
          (available.take (campaign.max_concurrent_calls - active_calls)) 0 []

/-- Python int() truncation toward zero on a rational. -/
def pyInt (q : ℚ) : Int :=
  if 0 ≤ q then q.floor else q.ceil

/-- Loop body sequence of run_predictive_dialer: runs for the given fuel,
drawing one candidate per iteration; a DNC hit consumes the iteration but
not an agent slot; otherwise the agent list is cycled by agentIdx. -/
def predLoop (campaign : Campaign) (now : Int) (proto : Nat → ProtoEnv)
    (mockId : Nat → String) (agents : List Agent) :
    DB → Nat → Nat → List OriginateResult → List OriginateResult × DB
  | db, 0, _, acc => (acc, db)
  | db, n + 1, agentIdx, acc =>
    match get_next_lead db campaign now with
    | none => (acc, db)
    | some lead =>
      if isDnc db campaign.cuenta_id lead.telefono then
        predLoop campaign now proto mockId agents (markLeadDnc db lead.id) n agentIdx acc
      else
        let agent := agents.getD (agentIdx % agents.length) default
        let step := originate_call db (proto agentIdx) (mockId agentIdx) now campaign.cuenta_id
          agent lead.telefono (some campaign) (some lead) none none
        predLoop campaign now proto mockId agents step.2 n (agentIdx + 1) (acc ++ [step.1])

/-- Embedding of dialer_engine.run_predictive_dialer: gates on campaign
state and schedule, computes target = int(available * predictive_factor)
and room = min(target, max_concurrent_calls) - active, and originates up
to room calls cycling the available-agent list. -/
def run_predictive_dialer (db : DB) (campaign : Campaign) (now : Int)
    (localTime localDow : Nat) (proto : Nat → ProtoEnv) (mockId : Nat → String) :
    List OriginateResult × DB :=
  if campaign.estado ≠ CampaignStatus.running then ([], db)
  else if !is_campaign_in_schedule campaign localTime localDow then ([], db)
  else
    let available_count := (get_available_agents db campaign.id).length
    if available_count = 0 then ([], db)
    else
      let active_calls : Int := get_active_calls_count db campaign.id
      let target_calls : Int := pyInt (available_count * campaign.predictive_factor)
      let max_new : Int := min (target_calls - active_calls)
        ((campaign.max_concurrent_calls : Int) - active_calls)
      if max_new ≤ 0 then ([], db)
      else
        let agents := get_available_agents db campaign.id
        predLoop campaign now proto mockId agents db max_new.toNat 0 []

/-- Progressive loop instrumented with the list of candidates drawn from
the lead queue: identical control flow to progLoop, additionally
accumulating every lead returned by get_next_lead during the tick. -/
def progLoopTrace (campaign : Campaign) (now : Int) (proto : Nat → ProtoEnv)
    (mockId : Nat → String) :
    DB → List Agent → Nat → List OriginateResult → List CampaignLead →
      (List OriginateResult × DB) × List CampaignLead
  | db, [], _, acc, drawn => ((acc, db), drawn)
  | db, agent :: rest, k, acc, drawn =>
    match get_next_lead db campaign now with
    | none => ((acc, db), drawn)
    | some lead =>
      if isDnc db campaign.cuenta_id lead.telefono then
        progLoopTrace campaign now proto mockId (markLeadDnc db lead.id) rest k acc
          (drawn ++ [lead])
      else
        let step := originate_call db (proto k) (mockId k) now campaign.cuenta_id agent
          lead.telefono (some campaign) (some lead) none none
        progLoopTrace campaign now proto mockId step.2 rest (k + 1) (acc ++ [step.1])
          (drawn ++ [lead])

/-- Candidates drawn from the lead queue during one progressive tick: the
same gates and loop as run_progressive_dialer, instrumented to record each
lead returned by get_next_lead. -/
def progressiveDrawn (db : DB) (campaign : Campaign) (now : Int)
    (localTime localDow : Nat) (proto : Nat → ProtoEnv) (mockId : Nat → String) :
    List CampaignLead :=
  if campaign.estado ≠ CampaignStatus.running then []
  else if !is_campaign_in_schedule campaign localTime localDow then []
  else
    let available := get_available_agents db campaign.id
    if available.isEmpty then []
    else
      let active_calls := get_active_calls_count db campaign.id
      if campaign.max_concurrent_calls ≤ active_calls then []
      else
        (progLoopTrace campaign now proto mockId db
          (available.take (campaign.max_concurrent_calls - active_calls)) 0 [] []).2

/-- Predictive loop instrumented with the list of candidates drawn from
the lead queue: identical control flow to predLoop. -/
def predLoopTrace (campaign : Campaign) (now : Int) (proto : Nat → ProtoEnv)
    (mockId : Nat → String) (agents : List Agent) :
    DB → Nat → Nat → List OriginateResult → List CampaignLead →
      (List OriginateResult × DB) × List CampaignLead
  | db, 0, _, acc, drawn => ((acc, db), drawn)
  | db, n + 1, agentIdx, acc, drawn =>
    match get_next_lead db campaign now with
    | none => ((acc, db), drawn)
    | some lead =>
      if isDnc db campaign.cuenta_id lead.telefono then
        predLoopTrace campaign now proto mockId agents (markLeadDnc db lead.id) n agentIdx acc
          (drawn ++ [lead])
      else
        let agent := agents.getD (agentIdx % agents.length) default
        let step := originate_call db (proto agentIdx) (mockId agentIdx) now campaign.cuenta_id
          agent lead.telefono (some campaign) (some lead) none none
        predLoopTrace campaign now proto mockId agents step.2 n (agentIdx + 1)
          (acc ++ [step.1]) (drawn ++ [lead])

/-- Candidates drawn from the lead queue during one predictive tick: the
same gates and loop as run_predictive_dialer, instrumented to record each
lead returned by get_next_lead. -/
def predictiveDrawn (db : DB) (campaign : Campaign) (now : Int)
    (localTime localDow : Nat) (proto : Nat → ProtoEnv) (mockId : Nat → String) :
    List CampaignLead :=
  if campaign.estado ≠ CampaignStatus.running then []
  else if !is_campaign_in_schedule campaign localTime localDow then []
  else
    let available_count := (get_available_agents db campaign.id).length
    if available_count = 0 then []
    else
      let active_calls : Int := get_active_calls_count db campaign.id
      let target_calls : Int := pyInt (available_count * campaign.predictive_factor)
      let max_new : Int := min (target_calls - active_calls)
        ((campaign.max_concurrent_calls : Int) - active_calls)
      if max_new ≤ 0 then []
      else
        let agents := get_available_agents db campaign.id
        (predLoopTrace campaign now proto mockId agents db max_new.toNat 0 [] []).2

/-- Embedding of dialer_engine.update_campaign_stats: recompute the cached
campaign counters from the campaign_leads table. -/
def update_campaign_stats (db : DB) (campaign_id : Nat) : DB :=
  if (db.campaigns.find? (fun c => decide (c.id = campaign_id))).isSome then
    let leadsOf := fun (st : CampaignLeadStatus) =>
      (db.campaign_leads.filter (fun l => decide
        (l.campaign_id = campaign_id ∧ l.estado = st))).length
    let total := (db.campaign_leads.filter (fun l => decide (l.campaign_id = campaign_id))).length
    let contacted := leadsOf CampaignLeadStatus.contacted
    let completed := leadsOf CampaignLeadStatus.completed
    let pending := leadsOf CampaignLeadStatus.pending
    { db with campaigns := db.campaigns.map (fun c =>
        if c.id = campaign_id then
          { c with total_leads := total
                 , leads_contacted := contacted + completed
                 , leads_pending := pending }
        else c) }
  else db

/-- Error taxonomy of the API endpoints embedded here: a 404, the
InvalidState rejection of a lifecycle transition, the two start-campaign
validation failures, and the invalid agent-status value rejection. -/
inductive ApiError
  | notFound
  | invalidState
  | noAgents
  | noLeads
  | invalidStatusValue
deriving DecidableEq, Repr, Inhabited

/-- Embedding of the start_campaign endpoint: only draft, paused or stopped
may start; non-manual campaigns need an assigned agent; at least one lead
must be enrolled; on success the campaign becomes running and the cached
stats are recomputed. -/
def start_campaign (db : DB) (campaign_id : Nat) : Except ApiError DB :=
  match db.campaigns.find? (fun c => decide (c.id = campaign_id)) with
  | none => .error ApiError.notFound
  | some c =>
    if c.estado ≠ CampaignStatus.draft ∧ c.estado ≠ CampaignStatus.paused ∧
       c.estado ≠ CampaignStatus.stopped then
      .error ApiError.invalidState
    else
      let agents_count := (db.campaign_agents.filter
        (fun ca => decide (ca.campaign_id = campaign_id))).length
      if c.dialer_mode ≠ DialerMode.manual ∧ agents_count = 0 then
        .error ApiError.noAgents
      else
        let leads_count := (db.campaign_leads.filter
          (fun l => decide (l.campaign_id = campaign_id))).length
        if leads_count = 0 then
          .error ApiError.noLeads
        else
          let db1 := { db with campaigns := db.campaigns.map (fun c1 =>
            if c1.id = campaign_id then { c1 with estado := CampaignStatus.running } else c1) }
          .ok (update_campaign_stats db1 campaign_id)

/-- String values accepted by the agent-status endpoint, one per
AgentStatus member. -/
def parseAgentStatus (s : String) : Option AgentStatus :=
  if s = "offline" then some AgentStatus.offline
  else if s = "available" then some AgentStatus.available
  else if s = "busy" then some AgentStatus.busy
  else if s = "ringing" then some AgentStatus.ringing
  else if s = "on_call" then some AgentStatus.on_call
  else if s = "wrap_up" then some AgentStatus.wrap_up
  else if s = "paused" then some AgentStatus.paused
  else none

/-- Embedding of the update_agent_status endpoint: rejects an unknown agent
or an estado outside the enum, then sets estado, keeping pause_reason only
for paused; current_call_id is not touched. -/
def update_agent_status (db : DB) (agent_id : Nat) (estado : String)
    (pause_reason : Option String) : Except ApiError DB :=
  match db.agents.find? (fun a => decide (a.id = agent_id)) with
  | none => .error ApiError.notFound
  | some _ =>
    match parseAgentStatus estado with
    | none => .error ApiError.invalidStatusValue
    | some st =>
      .ok { db with agents := db.agents.map (fun a =>
        if a.id = agent_id then
          { a with estado := st
                 , pause_reason := if st = AgentStatus.paused then pause_reason else none }
        else a) }

/-- Active-call lookup chain of set_campaign_lead_disposition: the id of
the CallRecord to stamp, present when the lead has an assigned agent that
exists and holds a current call whose record exists. -/
def activeCallOf (db : DB) (assigned : Option Nat) : Option Nat :=
  assigned.bind (fun aid =>
    (db.agents.find? (fun a => decide (a.id = aid))).bind (fun agent =>
      agent.current_call_id.bind (fun callId =>
        (db.call_records.find? (fun r => decide (r.id = callId))).map (fun _ => callId))))

/-- Call-record stamping step of set_campaign_lead_disposition: when the
lead's assigned agent exists and holds an active call whose record exists,
stamp the disposition and note on that record and append a disposition
CallEvent; otherwise leave the database unchanged. -/
def stampActiveCall (db : DB) (assigned : Option Nat) (disposition_id : Nat)
    (nota : Option String) (codigo : String) : DB :=
  match activeCallOf db assigned with
  | none => db
  | some callId =>
    { db with
      call_records := db.call_records.map (fun r =>
        if r.id = callId then
          { r with disposition_id := some disposition_id, disposition_nota := nota }
        else r)
    , call_events := db.call_events ++
        [{ call_record_id := callId, evento := "disposition"
         , detalle := [("disposition_code", codigo)] }] }

/-- Embedding of the set_campaign_lead_disposition endpoint: loads the lead
and the disposition, computes the new lead state (scheduled when a callback
is required and given, else completed when final, else contacted), stamps
the disposition onto the agent's active call when there is one, and
recomputes the campaign stats. -/
def set_campaign_lead_disposition (db : DB) (cl_id : Nat) (disposition_id : Nat)
    (nota : Option String) (callback_at : Option Int) : Except ApiError DB :=
  match db.campaign_leads.find? (fun l => decide (l.id = cl_id)) with
  | none => .error ApiError.notFound
  | some cl =>
    match db.dispositions.find? (fun d => decide (d.id = disposition_id)) with
    | none => .error ApiError.notFound
    | some d =>
      let reschedule := d.requiere_reagendamiento ∧ callback_at.isSome
      let newEstado :=
        if d.requiere_reagendamiento ∧ callback_at.isSome then CampaignLeadStatus.scheduled
        else if d.es_final then CampaignLeadStatus.completed
        else if d.es_contacto then CampaignLeadStatus.contacted
        else CampaignLeadStatus.contacted
      let db1 := { db with campaign_leads := db.campaign_leads.map (fun l =>
        if l.id = cl_id then
          { l with disposition_id := some disposition_id
                 , disposition_nota := nota
                 , estado := newEstado
                 , callback_at := if reschedule then callback_at else l.callback_at }
        else l) }
      .ok (update_campaign_stats
        (stampActiveCall db1 cl.assigned_agent_id disposition_id nota d.codigo)
        cl.campaign_id)

/-- Response shape of the manual-call endpoint. -/
structure ManualCallResponse where
  call_id : Nat
  uniqueid : Option String
  status : String
  message : String
deriving DecidableEq, Repr, Inhabited

/-- Embedding of the make_manual_call endpoint: resolves the campaign (404
when absent), delegates to manual_call, and builds the response; when the
result carries no call_record_id the endpoint substitutes a freshly
generated uuid4, passed here as freshUuid. -/
def make_manual_call (db : DB) (campaign_id : Nat) (agent_id : Nat)
    (campaign_lead_id : Nat) (proto : ProtoEnv) (mockId : String) (now : Int)
    (freshUuid : Nat) : Except ApiError (ManualCallResponse × DB) :=
  match db.campaigns.find? (fun c => decide (c.id = campaign_id)) with
  | none => .error ApiError.notFound
  | some campaign =>
    let step := manual_call db proto mockId now campaign.cuenta_id agent_id campaign_lead_id
    .ok ({ call_id := step.1.call_record_id.getD freshUuid
         , uniqueid := step.1.uniqueid
         , status := if step.1.success then "success" else "error"
         , message := step.1.message }, step.2)

/-- Invariant of the agent data model: the bound call is present exactly in
the ringing and on_call states. -/
def agentCallInvariant (a : Agent) : Prop :=
  a.current_call_id.isSome ↔ (a.estado = AgentStatus.ringing ∨ a.estado = AgentStatus.on_call)

instance (a : Agent) : Decidable (agentCallInvariant a) := by
  unfold agentCallInvariant; infer_instance

/-- Precondition family under which manual_call refuses before any
CallRecord is created: missing or inactive agent, agent in a non-dialable
state, missing lead, missing campaign, DNC hit, or exhausted retries. -/
def manualCallPrecheckFails (db : DB) (cuenta_id agent_id campaign_lead_id : Nat) : Prop :=
  (db.agents.find? (fun a => decide (a.id = agent_id ∧ a.cuenta_id = cuenta_id ∧ a.activo = true)) = none) ∨
  (∃ agent, db.agents.find? (fun a => decide (a.id = agent_id ∧ a.cuenta_id = cuenta_id ∧ a.activo = true)) = some agent ∧
    agent.estado ≠ AgentStatus.available ∧ agent.estado ≠ AgentStatus.wrap_up) ∨
  (db.campaign_leads.find? (fun l => decide (l.id = campaign_lead_id)) = none) ∨
  (∃ cl, db.campaign_leads.find? (fun l => decide (l.id = campaign_lead_id)) = some cl ∧
    db.campaigns.find? (fun c => decide (c.id = cl.campaign_id)) = none) ∨
  (∃ cl, db.campaign_leads.find? (fun l => decide (l.id = campaign_lead_id)) = some cl ∧
    isDnc db cuenta_id cl.telefono = true) ∨
  (∃ cl c, db.campaign_leads.find? (fun l => decide (l.id = campaign_lead_id)) = some cl ∧
    db.campaigns.find? (fun c1 => decide (c1.id = cl.campaign_id)) = some c ∧
    c.max_retries ≤ cl.intentos)

/-- Statement that every lead carrying a given id is marked dnc. -/
def leadMarked (db : DB) (i : Nat) : Prop :=
  ∀ l ∈ db.campaign_leads, l.id = i → l.estado = CampaignLeadStatus.dnc

/-- Contract of originate_call once a PBX node has been resolved (C2): the
pre-protocol commit durably creates the pending CallRecord and its
originate CallEvent, marks the agent ringing with the new call bound, and,
when a lead is supplied, marks it dialing with the attempt counter bumped
and the last-attempt timestamp set; a record with the new id survives into
the final state whatever the protocol does; and a protocol error response
or exception yields a non-success result while marking the record failed
and ended, appending a failed CallEvent, releasing the agent to available
with the call unbound, and marking the lead failed. -/
def OriginateContract (db : DB) (proto : ProtoEnv) (mockId : String) (now : Int)
    (cuenta_id : Nat) (agent : Agent) (destino : String)
    (campaign : Option Campaign) (campaignLead : Option CampaignLead)
    (trunkArg : Option SipTrunk) (callerIdArg : Option String) : Prop :=
  (∃ r, (originateSetup db now cuenta_id agent destino campaign campaignLead
      (resolveTrunk db campaign trunkArg) callerIdArg).1.call_records =
        db.call_records ++ [r] ∧
    r.id = db.next_id ∧ r.resultado = "pending" ∧ r.destino = destino ∧
    r.agent_id = some agent.id ∧ r.campaign_lead_id = campaignLead.map (fun cl => cl.id) ∧
    r.started_at = some now) ∧
  (∃ ev, (originateSetup db now cuenta_id agent destino campaign campaignLead
      (resolveTrunk db campaign trunkArg) callerIdArg).1.call_events =
        db.call_events ++ [ev] ∧
    ev.call_record_id = db.next_id ∧ ev.evento = "originate") ∧
  (∀ a ∈ (originateSetup db now cuenta_id agent destino campaign campaignLead
      (resolveTrunk db campaign trunkArg) callerIdArg).1.agents, a.id = agent.id →
    a.estado = AgentStatus.ringing ∧ a.current_call_id = some db.next_id) ∧
  (∀ cl0, campaignLead = some cl0 →
    (originateSetup db now cuenta_id agent destino campaign campaignLead
      (resolveTrunk db campaign trunkArg) callerIdArg).1.campaign_leads =
      db.campaign_leads.map (fun l =>
        if l.id = cl0.id then
          { l with estado := CampaignLeadStatus.dialing, intentos := l.intentos + 1
                 , ultimo_intento := some now, assigned_agent_id := some agent.id }
        else l)) ∧
  (∃ r ∈ (originate_call db proto mockId now cuenta_id agent destino campaign
      campaignLead trunkArg callerIdArg).2.call_records, r.id = db.next_id) ∧
  (((∃ e, send_originate proto mockId = Except.error e) ∨
    (∃ resp, send_originate proto mockId = Except.ok resp ∧ resp.response ≠ "Success")) →
    (originate_call db proto mockId now cuenta_id agent destino campaign
      campaignLead trunkArg callerIdArg).1.success = false ∧
    (originate_call db proto mockId now cuenta_id agent destino campaign
      campaignLead trunkArg callerIdArg).1.call_record_id = some db.next_id ∧
    (∀ r ∈ (originate_call db proto mockId now cuenta_id agent destino campaign
        campaignLead trunkArg callerIdArg).2.call_records, r.id = db.next_id →
      r.resultado = "failed" ∧ r.ended_at = some now) ∧
    (∃ ev ∈ (originate_call db proto mockId now cuenta_id agent destino campaign
        campaignLead trunkArg callerIdArg).2.call_events,
      ev.call_record_id = db.next_id ∧ ev.evento = "failed") ∧
    (∀ a ∈ (originate_call db proto mockId now cuenta_id agent destino campaign
        campaignLead trunkArg callerIdArg).2.agents, a.id = agent.id →
      a.estado = AgentStatus.available ∧ a.current_call_id = none) ∧
    (∀ cl0, campaignLead = some cl0 →
      ∀ l ∈ (originate_call db proto mockId now cuenta_id agent destino campaign
          campaignLead trunkArg callerIdArg).2.campaign_leads, l.id = cl0.id →
        l.estado = CampaignLeadStatus.failed))

/-- An active PBX node used by the concrete scenarios. -/
def nodeA : PbxNode := { id := 20, cuenta_id := 1, activo := true }

/-- A first available agent used by the concrete scenarios. -/
def agentA : Agent :=
  { id := 2, cuenta_id := 1, pbx_node_id := none, extension := "1001"
  , estado := AgentStatus.available, pause_reason := none
  , current_call_id := none, activo := true }

/-- A second available agent used by the concrete scenarios. -/
def agentB : Agent := { agentA with id := 3, extension := "1002" }

/-- A running progressive campaign with no schedule window. -/
def campA : Campaign :=
  { id := 1, cuenta_id := 1, trunk_id := none, pbx_node_id := none
  , dialer_mode := DialerMode.progressive, caller_id := none
  , estado := CampaignStatus.running, hora_inicio := none, hora_fin := none
  , dias_semana := none, max_concurrent_calls := 5, max_retries := 3
  , retry_delay_minutes := 60, ring_timeout := 30, predictive_factor := 1
  , total_leads := 0, leads_contacted := 0, leads_pending := 0 }

/-- A pending lead of campaign 1 with the given id and phone. -/
def leadN (i : Nat) (tel : String) : CampaignLead :=
  { id := i, campaign_id := 1, lead_id := 100 + i, telefono := tel
  , estado := CampaignLeadStatus.pending, intentos := 0, ultimo_intento := none
  , proximo_intento := none, disposition_id := none, disposition_nota := none
  , callback_at := none, assigned_agent_id := none, created_at := (i : Int) }

/-- The empty database with a fresh-id counter. -/
def emptyDB : DB :=
  { agents := [], campaigns := [], campaign_agents := [], campaign_leads := []
  , call_records := [], call_events := [], dnc_entries := [], pbx_nodes := []
  , sip_trunks := [], dispositions := [], next_id := 50 }

/-- Scenario database: two available agents assigned to a running
progressive campaign with five pending leads and no DNC entries. -/
def dbProg : DB :=
  { emptyDB with
    agents := [agentA, agentB]
  , campaigns := [campA]
  , campaign_agents := [{ campaign_id := 1, agent_id := 2 }, { campaign_id := 1, agent_id := 3 }]
  , campaign_leads := [leadN 10 "p10", leadN 11 "p11", leadN 12 "p12", leadN 13 "p13", leadN 14 "p14"]
  , pbx_nodes := [nodeA] }

/-- The same scenario with the first lead's phone on the tenant DNC list. -/
def dbDnc : DB := { dbProg with dnc_entries := [{ cuenta_id := 1, telefono := "p10" }] }

/-- The same scenario with the campaign still in draft. -/
def dbDraft : DB := { dbProg with campaigns := [{ campA with estado := CampaignStatus.draft }] }

/-- A database whose only agent is on a call with its current call bound. -/
def dbOnCall : DB :=
  { emptyDB with agents :=
      [{ agentA with id := 1, estado := AgentStatus.on_call, current_call_id := some 7 }] }

/-- A protocol environment that always answers Success. -/
def protoOk : ProtoEnv :=
  ProtoEnv.answered { response := "Success", amiUniqueid := some "uid", amiMessage := none }

/-- A per-call protocol oracle that always answers Success. -/
def protoOkF : Nat → ProtoEnv := fun _ => protoOk

/-- A per-call mock-identifier oracle. -/
def mockF : Nat → String := fun _ => "m"

/-- The draft scenario with no leads enrolled. -/
def dbNoLeads : DB := { dbDraft with campaign_leads := [] }

/-- A due scheduled-callback lead. -/
def leadSched : CampaignLead :=
  { leadN 30 "s1" with estado := CampaignLeadStatus.scheduled, callback_at := some 5 }

/-- A due retry lead in state no_answer with one attempt. -/
def leadRetry : CampaignLead :=
  { leadN 31 "r1" with
    estado := CampaignLeadStatus.no_answer, intentos := 1, proximo_intento := some 3 }

/-- A fresh pending lead. -/
def leadPend : CampaignLead := leadN 32 "q1"

/-- Lead-queue scenario with all three tiers populated. -/
def dbT1 : DB :=
  { emptyDB with campaigns := [campA], campaign_leads := [leadSched, leadRetry, leadPend] }

/-- Lead-queue scenario with only the retry and pending tiers populated. -/
def dbT2 : DB := { dbT1 with campaign_leads := [leadRetry, leadPend] }

/-- Lead-queue scenario with only the pending tier populated. -/
def dbT3 : DB := { dbT1 with campaign_leads := [leadPend] }

/-- Lead-queue scenario with no leads at all. -/
def dbT0 : DB := { dbT1 with campaign_leads := [] }

/-- A disposition that requires callback scheduling. -/
def dispCallback : Disposition :=
  { id := 40, cuenta_id := 1, codigo := "RELLAMAR", es_contacto := false
  , es_final := false, requiere_reagendamiento := true }

/-- A final disposition counting as contact. -/
def dispFinal : Disposition :=
  { id := 41, cuenta_id := 1, codigo := "VENTA", es_contacto := true
  , es_final := true, requiere_reagendamiento := false }

/-- An answered call record bound to the scenario's first agent. -/
def callRec60 : CallRecord :=
  { id := 60, cuenta_id := 1, campaign_id := some 1, campaign_lead_id := some 10
  , agent_id := some 2, trunk_id := none, uniqueid := some "u60", caller_id := none
  , destino := "p10", extension := some "1001", started_at := some 0, ended_at := none
  , resultado := "answered", disposition_id := none, disposition_nota := none
  , direccion := "outbound" }

/-- Disposition scenario: an on-call agent with a bound active call, a lead
assigned to that agent, and the two dispositions above. -/
def dbDisp : DB :=
  { dbProg with
    dispositions := [dispCallback, dispFinal]
  , agents := [{ agentA with estado := AgentStatus.on_call, current_call_id := some 60 }]
  , campaign_leads := [{ leadN 10 "p10" with assigned_agent_id := some 2 }]
  , call_records := [callRec60] }

theorem firstMinBy_mem {α : Type} {key : α → Int} {l : List α} {x : α}
    (h : firstMinBy key l = some x) : x ∈ l := by
  induction l with
  | nil => simp [firstMinBy] at h
  | cons a as ih =>
    rw [firstMinBy] at h
    cases has : firstMinBy key as with
    | none => rw [has] at h; simp_all
    | some y =>
      rw [has] at h
      by_cases hk : key a ≤ key y
      · simp [hk] at h; simp [h]
      · simp [hk] at h; exact List.mem_cons_of_mem a (ih (h ▸ has))

theorem firstMinBy_le {α : Type} {key : α → Int} {l : List α} {x : α}
    (h : firstMinBy key l = some x) : ∀ y ∈ l, key x ≤ key y := by
  induction l generalizing x with
  | nil => simp [firstMinBy] at h
  | cons a as ih =>
    rw [firstMinBy] at h
    cases has : firstMinBy key as with
    | none =>
      rw [has] at h
      have : as = [] := by
        cases as with
        | nil => rfl
        | cons b bs =>
          exfalso
          rw [firstMinBy] at has
          cases hbs : firstMinBy key bs <;> rw [hbs] at has <;> simp at has
          split at has <;> simp at has
      subst this
      simp_all
    | some y =>
      rw [has] at h
      by_cases hk : key a ≤ key y
      · simp [hk] at h
        subst h
        intro z hz
        rcases List.mem_cons.mp hz with hz | hz
        · subst hz; rfl
        · exact le_trans hk (ih has z hz)
      · simp [hk] at h
        subst h
        intro z hz
        rcases List.mem_cons.mp hz with hz | hz
        · subst hz; exact le_of_not_le hk
        · exact ih has z hz

theorem firstMinBy_eq_none {α : Type} {key : α → Int} {l : List α} :
    firstMinBy key l = none ↔ l = [] := by
  constructor
  · intro h
    cases l with
    | nil => rfl
    | cons a as =>
      rw [firstMinBy] at h
      cases has : firstMinBy key as <;> rw [has] at h <;> simp at h
      split at h <;> simp at h
  · intro h; subst h; rfl

/-- C9 counterexample: with the protocol library installed but the network
unreachable, _send_originate catches the transport exception and returns a
structured Error dict, not the synthetic mock success the claim promises
for that case. -/
theorem send_originate_network_error_cex :
    send_originate (ProtoEnv.transportError "Network is unreachable") "ab" =
      Except.ok { response := "Error", amiUniqueid := none
                , amiMessage := some "Network is unreachable" } ∧
    ("Error" : String) ≠ "Success" := by
  exact ⟨rfl, by decide⟩

/-- C9 (amended): only the absence of the protocol library triggers the
synthetic mock success, whose generated identifier is prefixed mock- and
whose message marks it as mock, distinguishable from a real success; a
transport failure instead yields a structured Error response carrying the
error text, and no exception escapes (send_originate only returns the
Except.error case for an exception escaping into originate_call, which the
transport branch never does). -/
theorem send_originate_mock_only_for_missing_library :
    (∀ mid, send_originate ProtoEnv.libMissing mid =
      Except.ok { response := "Success", amiUniqueid := some ("mock-" ++ mid)
                , amiMessage := some "Originate successfully queued (mock)" }) ∧
    (∀ msg mid, send_originate (ProtoEnv.transportError msg) mid =
      Except.ok { response := "Error", amiUniqueid := none, amiMessage := some msg }) ∧
    (∀ resp mid, send_originate (ProtoEnv.answered resp) mid = Except.ok resp) := by
  exact ⟨fun _ => rfl, fun _ _ => rfl, fun _ _ => rfl⟩

/-- C3 counterexample: the manual strategy does not consult the campaign
gate: on a campaign still in draft (hence not running), with an available
agent, an enrolled lead and an active node, manual_call succeeds and
mutates the database, instead of refusing to act. -/
theorem manual_call_ignores_campaign_gate_cex :
    (∀ c ∈ dbDraft.campaigns, c.estado ≠ CampaignStatus.running) ∧
    (manual_call dbDraft protoOk "m" 0 1 2 10).1.success = true ∧
    (manual_call dbDraft protoOk "m" 0 1 2 10).2 ≠ dbDraft := by
  refine ⟨by decide, by decide, by decide⟩

/-- C3 (amended): the progressive and predictive strategies refuse to act
— they originate nothing and leave the database untouched — whenever the
campaign is not running or the current time is outside its schedule
window; the manual strategy performs no such check. -/
theorem auto_dialers_refuse_outside_gate (db : DB) (campaign : Campaign) (now : Int)
    (localTime localDow : Nat) (proto : Nat → ProtoEnv) (mockId : Nat → String)
    (h : campaign.estado ≠ CampaignStatus.running ∨
         is_campaign_in_schedule campaign localTime localDow = false) :
    run_progressive_dialer db campaign now localTime localDow proto mockId = ([], db) ∧
    run_predictive_dialer db campaign now localTime localDow proto mockId = ([], db) := by
  rcases h with h | h
  · exact ⟨by simp [run_progressive_dialer, h], by simp [run_predictive_dialer, h]⟩
  · constructor
    · rw [run_progressive_dialer]
      split
      · rfl
      · simp [h]
    · rw [run_predictive_dialer]
      split
      · rfl
      · simp [h]

/-- C3 witness: both automatic dialers refuse on the concrete draft
campaign even with agents, leads and a node present. -/
theorem auto_dialers_refuse_outside_gate_witness :
    run_progressive_dialer dbDraft { campA with estado := CampaignStatus.draft } 0 0 1
      protoOkF mockF = ([], dbDraft) ∧
    run_predictive_dialer dbDraft { campA with estado := CampaignStatus.draft } 0 0 1
      protoOkF mockF = ([], dbDraft) :=
  auto_dialers_refuse_outside_gate dbDraft { campA with estado := CampaignStatus.draft }
    0 0 1 protoOkF mockF (Or.inl (by decide))

theorem find?_map_comm {α : Type} (p : α → Bool) (f : α → α)
    (hf : ∀ x, p (f x) = p x) (l : List α) :
    (l.map f).find? p = (l.find? p).map f := by
  induction l with
  | nil => rfl
  | cons a as ih =>
    by_cases hp : p a = true
    · simp [List.find?_cons, hf, hp]
    · rw [List.map_cons, List.find?_cons_of_neg _ (by rw [hf]; simpa using hp),
        List.find?_cons_of_neg _ (by simpa using hp), ih]

theorem update_campaign_stats_found {db : DB} {cid : Nat} {c0 : Campaign}
    (h : db.campaigns.find? (fun c1 => decide (c1.id = cid)) = some c0) :
    update_campaign_stats db cid =
      { db with campaigns := db.campaigns.map (fun c =>
          if c.id = cid then
            { c with
              total_leads :=
                (db.campaign_leads.filter (fun l => decide (l.campaign_id = cid))).length
            , leads_contacted :=
                (db.campaign_leads.filter (fun l => decide
                  (l.campaign_id = cid ∧ l.estado = CampaignLeadStatus.contacted))).length +
                (db.campaign_leads.filter (fun l => decide
                  (l.campaign_id = cid ∧ l.estado = CampaignLeadStatus.completed))).length
            , leads_pending :=
                (db.campaign_leads.filter (fun l => decide
                  (l.campaign_id = cid ∧ l.estado = CampaignLeadStatus.pending))).length }
          else c) } := by
  rw [update_campaign_stats, if_pos (by rw [h]; rfl)]

theorem originateSetup_agents_invariant {db : DB} (now : Int) (cuenta_id : Nat)
    (agent : Agent) (destino : String) (campaign : Option Campaign)
    (campaignLead : Option CampaignLead) (trunk : Option SipTrunk)
    (callerIdArg : Option String)
    (h : ∀ a ∈ db.agents, agentCallInvariant a) :
    ∀ a ∈ (originateSetup db now cuenta_id agent destino campaign campaignLead
      trunk callerIdArg).1.agents, agentCallInvariant a := by
  intro a ha
  simp only [originateSetup, List.mem_map] at ha
  obtain ⟨a0, ha0, rfl⟩ := ha
  by_cases hid : a0.id = agent.id
  · simp [hid, agentCallInvariant]
  · simp only [hid, if_false]
    exact h a0 ha0

theorem originateFail_agents_invariant {db : DB} (crId : Nat) (now : Int)
    (agent : Agent) (campaignLead : Option CampaignLead) (errMsg : String)
    (h : ∀ a ∈ db.agents, agentCallInvariant a) :
    ∀ a ∈ (originateFail db crId now agent campaignLead errMsg).2.agents,
      agentCallInvariant a := by
  intro a ha
  simp only [originateFail, List.mem_map] at ha
  obtain ⟨a0, ha0, rfl⟩ := ha
  by_cases hid : a0.id = agent.id
  · simp [hid, agentCallInvariant]
  · simp only [hid, if_false]
    exact h a0 ha0

/-- C4 counterexample: the agent-status endpoint changes the state without
touching current_call, so updating an on-call agent to available leaves a
bound current_call in a state outside ringing and on_call, violating the
invariant the claim asserts it preserves. -/
theorem agent_status_update_breaks_call_binding_cex :
    (∀ a ∈ dbOnCall.agents, agentCallInvariant a) ∧
    ∃ db', update_agent_status dbOnCall 1 "available" none = Except.ok db' ∧
      ∃ a ∈ db'.agents, ¬ agentCallInvariant a := by
  exact ⟨by decide, ⟨_, rfl, by decide⟩⟩

/-- C4 (amended): call origination and its failure handling preserve the
invariant that current_call is bound exactly in the ringing and on_call
states — origination binds the call while setting ringing, and the failure
path clears it while setting available — but the agent status update
endpoint does not preserve it, since it never touches current_call. -/
theorem originate_preserves_agent_call_binding (db : DB) (proto : ProtoEnv)
    (mockId : String) (now : Int) (cuenta_id : Nat) (agent : Agent) (destino : String)
    (campaign : Option Campaign) (campaignLead : Option CampaignLead)
    (trunkArg : Option SipTrunk) (callerIdArg : Option String)
    (h : ∀ a ∈ db.agents, agentCallInvariant a) :
    ∀ a ∈ (originate_call db proto mockId now cuenta_id agent destino campaign
      campaignLead trunkArg callerIdArg).2.agents, agentCallInvariant a := by
  rw [originate_call]
  cases hn : resolveNode db cuenta_id agent campaign with
  | none => simpa using h
  | some node =>
    simp only
    have hsetup := originateSetup_agents_invariant now cuenta_id agent destino campaign
      campaignLead (resolveTrunk db campaign trunkArg) callerIdArg h
    cases hs : send_originate proto mockId with
    | error e =>
      simp only
      exact originateFail_agents_invariant _ _ _ _ _ hsetup
    | ok resp =>
      by_cases hr : resp.response = "Success"
      · simpa [hr] using hsetup
      · simp only [hr, if_false]
        exact originateFail_agents_invariant _ _ _ _ _ hsetup

/-- C4 witness: the preservation theorem applied to the concrete scenario
database and a successful origination for its first agent, stated as a
closed boolean check over the resulting agent table. -/
theorem originate_preserves_agent_call_binding_witness :
    ((originate_call dbProg protoOk "m" 0 1 agentA "p10" (some campA)
      (some (leadN 10 "p10")) none none).2.agents.all
        (fun a => decide (agentCallInvariant a))) = true := by
  have h := originate_preserves_agent_call_binding dbProg protoOk "m" 0 1 agentA "p10"
    (some campA) (some (leadN 10 "p10")) none none (by decide)
  rw [List.all_eq_true]
  intro a ha
  exact decide_eq_true (h a ha)

/-- C5: for a campaign found in the database, start succeeds exactly when
its state is draft, paused or stopped, at least one lead is enrolled, and
the mode is manual or at least one agent is assigned; on success the
campaign's state becomes running and its cached counters are recomputed
from the lead table; attempted on a running campaign it fails with the
InvalidState error; from a startable state with zero leads it fails with a
validation error distinct from InvalidState. -/
theorem start_campaign_spec (db : DB) (cid : Nat) (c : Campaign)
    (hc : db.campaigns.find? (fun c1 => decide (c1.id = cid)) = some c) :
    ((∃ db', start_campaign db cid = Except.ok db') ↔
      ((c.estado = CampaignStatus.draft ∨ c.estado = CampaignStatus.paused ∨
        c.estado = CampaignStatus.stopped) ∧
       (db.campaign_leads.filter (fun l => decide (l.campaign_id = cid))).length ≠ 0 ∧
       (c.dialer_mode = DialerMode.manual ∨
        (db.campaign_agents.filter (fun ca => decide (ca.campaign_id = cid))).length ≠ 0))) ∧
    (∀ db', start_campaign db cid = Except.ok db' →
      ∀ c' ∈ db'.campaigns, c'.id = cid →
        c'.estado = CampaignStatus.running ∧
        c'.total_leads =
          (db.campaign_leads.filter (fun l => decide (l.campaign_id = cid))).length ∧
        c'.leads_contacted =
          (db.campaign_leads.filter (fun l => decide
            (l.campaign_id = cid ∧ l.estado = CampaignLeadStatus.contacted))).length +
          (db.campaign_leads.filter (fun l => decide
            (l.campaign_id = cid ∧ l.estado = CampaignLeadStatus.completed))).length ∧
        c'.leads_pending =
          (db.campaign_leads.filter (fun l => decide
            (l.campaign_id = cid ∧ l.estado = CampaignLeadStatus.pending))).length) ∧
    (c.estado = CampaignStatus.running →
      start_campaign db cid = Except.error ApiError.invalidState) ∧
    ((c.estado = CampaignStatus.draft ∨ c.estado = CampaignStatus.paused ∨
      c.estado = CampaignStatus.stopped) →
      (db.campaign_leads.filter (fun l => decide (l.campaign_id = cid))).length = 0 →
      ∃ e, start_campaign db cid = Except.error e ∧
        e ≠ ApiError.invalidState ∧ e ≠ ApiError.notFound) := by
  have hmain : start_campaign db cid =
      (if c.estado ≠ CampaignStatus.draft ∧ c.estado ≠ CampaignStatus.paused ∧
          c.estado ≠ CampaignStatus.stopped then
        Except.error ApiError.invalidState
      else if c.dialer_mode ≠ DialerMode.manual ∧
          (db.campaign_agents.filter (fun ca => decide (ca.campaign_id = cid))).length = 0 then
        Except.error ApiError.noAgents
      else if (db.campaign_leads.filter (fun l => decide (l.campaign_id = cid))).length = 0 then
        Except.error ApiError.noLeads
      else
        Except.ok (update_campaign_stats
          { db with campaigns := db.campaigns.map (fun c1 =>
              if c1.id = cid then { c1 with estado := CampaignStatus.running } else c1) }
          cid)) := by
    rw [start_campaign, hc]
  refine ⟨?_, ?_, ?_, ?_⟩
  · rw [hmain]
    split_ifs with h1 h2 h3
    · simp only [not_and_or, not_not] at h1
      constructor
      · rintro ⟨db', hdb'⟩; simp at hdb'
      · rintro ⟨hs, -, -⟩
        exfalso
        rcases hs with hs | hs | hs <;> simp [hs] at h1
    · constructor
      · rintro ⟨db', hdb'⟩; simp at hdb'
      · rintro ⟨-, -, hmode⟩
        rcases hmode with hmode | hmode
        · exact absurd hmode h2.1
        · exact absurd h2.2 hmode
    · constructor
      · rintro ⟨db', hdb'⟩; simp at hdb'
      · rintro ⟨-, hleads, -⟩
        exact absurd h3 hleads
    · constructor
      · intro _
        refine ⟨?_, h3, ?_⟩
        · by_contra hs
          push_neg at hs
          exact h1 ⟨hs.1, hs.2.1, hs.2.2⟩
        · by_cases hm : c.dialer_mode = DialerMode.manual
          · exact Or.inl hm
          · right
            intro hz
            exact h2 ⟨hm, hz⟩
      · intro _
        exact ⟨_, rfl⟩
  · rw [hmain]
    split_ifs with h1 h2 h3 <;> intro db' hdb' <;> simp at hdb'
    subst hdb'
    have hcid0 : c.id = cid := by simpa using List.find?_some hc
    have hfind : (db.campaigns.map (fun c1 =>
        if c1.id = cid then { c1 with estado := CampaignStatus.running } else c1)).find?
        (fun c1 => decide (c1.id = cid)) =
        some { c with estado := CampaignStatus.running } := by
      rw [find?_map_comm _ _ (fun x => by by_cases hx : x.id = cid <;> simp [hx]), hc]
      simp [hcid0]
    rw [update_campaign_stats_found hfind]
    intro c' hc' hcid
    simp only [List.mem_map] at hc'
    obtain ⟨c1, hc1, rfl⟩ := hc'
    obtain ⟨c0, hc0, rfl⟩ := hc1
    by_cases hid : c0.id = cid
    · simp [hid]
    · simp only [hid, if_false] at hcid ⊢
  · intro hrun
    rw [hmain]
    have h1 : c.estado ≠ CampaignStatus.draft ∧ c.estado ≠ CampaignStatus.paused ∧
        c.estado ≠ CampaignStatus.stopped := by
      rw [hrun]; exact ⟨by decide, by decide, by decide⟩
    simp [h1]
  · intro hs hz
    rw [hmain]
    have h1 : ¬ (c.estado ≠ CampaignStatus.draft ∧ c.estado ≠ CampaignStatus.paused ∧
        c.estado ≠ CampaignStatus.stopped) := by
      rcases hs with hs | hs | hs <;> simp [hs]
    rw [if_neg h1]
    by_cases h2 : c.dialer_mode ≠ DialerMode.manual ∧
        (db.campaign_agents.filter (fun ca => decide (ca.campaign_id = cid))).length = 0
    · exact ⟨ApiError.noAgents, by rw [if_pos h2], by decide, by decide⟩
    · exact ⟨ApiError.noLeads, by rw [if_neg h2, if_pos hz], by decide, by decide⟩

/-- C5 witness: start succeeds on the concrete draft campaign with leads
and agents, fails with InvalidState on the running one, and fails with a
validation error distinct from InvalidState when no lead is enrolled. -/
theorem start_campaign_spec_witness :
    (∃ db', start_campaign dbDraft 1 = Except.ok db') ∧
    start_campaign dbProg 1 = Except.error ApiError.invalidState ∧
    (∃ e, start_campaign dbNoLeads 1 = Except.error e ∧
      e ≠ ApiError.invalidState ∧ e ≠ ApiError.notFound) :=
  ⟨(start_campaign_spec dbDraft 1 { campA with estado := CampaignStatus.draft }
      (by decide)).1.mpr ⟨by decide, by decide, by decide⟩,
   (start_campaign_spec dbProg 1 campA (by decide)).2.2.1 rfl,
   (start_campaign_spec dbNoLeads 1 { campA with estado := CampaignStatus.draft }
      (by decide)).2.2.2 (by decide) (by decide)⟩

/-- C6: next-lead selection is strict priority — the earliest due callback
if any, else the earliest due retry under the attempt budget, else the
oldest pending lead, else none — each tier yielding at most one candidate,
always a lead of the campaign, and a retry-state lead is only ever
returned with attempts strictly below max_retries. -/
theorem get_next_lead_priority_spec (db : DB) (campaign : Campaign) (now : Int) :
    (∀ l, get_next_lead db campaign now = some l →
       l ∈ db.campaign_leads ∧ l.campaign_id = campaign.id) ∧
    (dueCallbacks db campaign now ≠ [] →
      ∃ l, get_next_lead db campaign now = some l ∧ l ∈ dueCallbacks db campaign now ∧
        ∀ m ∈ dueCallbacks db campaign now, l.callback_at.getD 0 ≤ m.callback_at.getD 0) ∧
    (dueCallbacks db campaign now = [] → dueRetries db campaign now ≠ [] →
      ∃ l, get_next_lead db campaign now = some l ∧ l ∈ dueRetries db campaign now ∧
        ∀ m ∈ dueRetries db campaign now, l.proximo_intento.getD 0 ≤ m.proximo_intento.getD 0) ∧
    (dueCallbacks db campaign now = [] → dueRetries db campaign now = [] →
      pendingLeads db campaign ≠ [] →
      ∃ l, get_next_lead db campaign now = some l ∧ l ∈ pendingLeads db campaign ∧
        ∀ m ∈ pendingLeads db campaign, l.created_at ≤ m.created_at) ∧
    (dueCallbacks db campaign now = [] → dueRetries db campaign now = [] →
      pendingLeads db campaign = [] → get_next_lead db campaign now = none) ∧
    (∀ l, get_next_lead db campaign now = some l →
      (l.estado = CampaignLeadStatus.no_answer ∨ l.estado = CampaignLeadStatus.busy ∨
       l.estado = CampaignLeadStatus.failed) →
      l.intentos < campaign.max_retries) := by
  have hGN : ∀ l, get_next_lead db campaign now = some l →
      l ∈ dueCallbacks db campaign now ∨ l ∈ dueRetries db campaign now ∨
        l ∈ pendingLeads db campaign := by
    intro l h
    rw [get_next_lead] at h
    cases h1 : firstMinBy (fun x => x.callback_at.getD 0) (dueCallbacks db campaign now) with
    | some y =>
      rw [h1] at h; simp at h; subst h; exact Or.inl (firstMinBy_mem h1)
    | none =>
      rw [h1] at h
      cases h2 : firstMinBy (fun x => x.proximo_intento.getD 0) (dueRetries db campaign now) with
      | some y =>
        rw [h2] at h; simp at h; subst h; exact Or.inr (Or.inl (firstMinBy_mem h2))
      | none =>
        rw [h2] at h; exact Or.inr (Or.inr (firstMinBy_mem h))
  refine ⟨?_, ?_, ?_, ?_, ?_, ?_⟩
  · intro l h
    rcases hGN l h with hm | hm | hm
    · have := List.mem_filter.mp hm
      refine ⟨this.1, ?_⟩
      have hp := this.2
      simp only [Bool.and_eq_true, decide_eq_true_eq] at hp
      exact hp.1.1
    · have := List.mem_filter.mp hm
      refine ⟨this.1, ?_⟩
      have hp := this.2
      simp only [Bool.and_eq_true, decide_eq_true_eq] at hp
      exact hp.1.1
    · have := List.mem_filter.mp hm
      refine ⟨this.1, ?_⟩
      have hp := this.2
      simp only [decide_eq_true_eq] at hp
      exact hp.1
  · intro hne
    cases h1 : firstMinBy (fun x => x.callback_at.getD 0) (dueCallbacks db campaign now) with
    | none => exact absurd (firstMinBy_eq_none.mp h1) hne
    | some y =>
      refine ⟨y, ?_, firstMinBy_mem h1, firstMinBy_le h1⟩
      rw [get_next_lead, h1]
  · intro hcb hne
    cases h2 : firstMinBy (fun x => x.proximo_intento.getD 0) (dueRetries db campaign now) with
    | none => exact absurd (firstMinBy_eq_none.mp h2) hne
    | some y =>
      refine ⟨y, ?_, firstMinBy_mem h2, firstMinBy_le h2⟩
      rw [get_next_lead, firstMinBy_eq_none.mpr hcb, h2]
  · intro hcb hrt hne
    cases h3 : firstMinBy (fun x => x.created_at) (pendingLeads db campaign) with
    | none => exact absurd (firstMinBy_eq_none.mp h3) hne
    | some y =>
      refine ⟨y, ?_, firstMinBy_mem h3, firstMinBy_le h3⟩
      rw [get_next_lead, firstMinBy_eq_none.mpr hcb, firstMinBy_eq_none.mpr hrt, h3]
  · intro hcb hrt hpd
    rw [get_next_lead, firstMinBy_eq_none.mpr hcb, firstMinBy_eq_none.mpr hrt,
      firstMinBy_eq_none.mpr hpd]
  · intro l h hst
    rcases hGN l h with hm | hm | hm
    · have hp := (List.mem_filter.mp hm).2
      simp only [Bool.and_eq_true, decide_eq_true_eq] at hp
      rcases hst with hs | hs | hs <;> rw [hp.1.2] at hs <;> exact absurd hs (by decide)
    · have hp := (List.mem_filter.mp hm).2
      simp only [Bool.and_eq_true, decide_eq_true_eq] at hp
      exact hp.1.2.2
    · have hp := (List.mem_filter.mp hm).2
      simp only [decide_eq_true_eq] at hp
      rcases hst with hs | hs | hs <;> rw [hp.2] at hs <;> exact absurd hs (by decide)

/-- C6 witness: the priority tiers exercised on four concrete databases,
and the attempt-budget bound for the concrete retry lead. -/
theorem get_next_lead_priority_spec_witness :
    (∃ l, get_next_lead dbT1 campA 100 = some l ∧ l ∈ dueCallbacks dbT1 campA 100 ∧
       ∀ m ∈ dueCallbacks dbT1 campA 100, l.callback_at.getD 0 ≤ m.callback_at.getD 0) ∧
    (∃ l, get_next_lead dbT2 campA 100 = some l ∧ l ∈ dueRetries dbT2 campA 100 ∧
       ∀ m ∈ dueRetries dbT2 campA 100, l.proximo_intento.getD 0 ≤ m.proximo_intento.getD 0) ∧
    (∃ l, get_next_lead dbT3 campA 100 = some l ∧ l ∈ pendingLeads dbT3 campA ∧
       ∀ m ∈ pendingLeads dbT3 campA, l.created_at ≤ m.created_at) ∧
    get_next_lead dbT0 campA 100 = none ∧
    leadRetry.intentos < campA.max_retries :=
  ⟨(get_next_lead_priority_spec dbT1 campA 100).2.1 (by decide),
   (get_next_lead_priority_spec dbT2 campA 100).2.2.1 (by decide) (by decide),
   (get_next_lead_priority_spec dbT3 campA 100).2.2.2.1 (by decide) (by decide) (by decide),
   (get_next_lead_priority_spec dbT0 campA 100).2.2.2.2.1 (by decide) (by decide) (by decide),
   (get_next_lead_priority_spec dbT2 campA 100).2.2.2.2.2 leadRetry (by decide) (by decide)⟩

theorem progLoop_nil (campaign : Campaign) (now : Int) (proto : Nat → ProtoEnv)
    (mockId : Nat → String) (db : DB) (k : Nat) (acc : List OriginateResult) :
    progLoop campaign now proto mockId db [] k acc = (acc, db) := rfl

theorem progLoop_cons_none {campaign : Campaign} {now : Int} {proto : Nat → ProtoEnv}
    {mockId : Nat → String} {db : DB} {a : Agent} {rest : List Agent} {k : Nat}
    {acc : List OriginateResult} (hl : get_next_lead db campaign now = none) :
    progLoop campaign now proto mockId db (a :: rest) k acc = (acc, db) := by
  rw [progLoop, hl]

theorem progLoop_cons_some {campaign : Campaign} {now : Int} {proto : Nat → ProtoEnv}
    {mockId : Nat → String} {db : DB} {a : Agent} {rest : List Agent} {k : Nat}
    {acc : List OriginateResult} {lead : CampaignLead}
    (hl : get_next_lead db campaign now = some lead) :
    progLoop campaign now proto mockId db (a :: rest) k acc =
      if isDnc db campaign.cuenta_id lead.telefono then
        progLoop campaign now proto mockId (markLeadDnc db lead.id) rest k acc
      else
        progLoop campaign now proto mockId
          (originate_call db (proto k) (mockId k) now campaign.cuenta_id a lead.telefono
            (some campaign) (some lead) none none).2 rest (k + 1)
          (acc ++ [(originate_call db (proto k) (mockId k) now campaign.cuenta_id a
            lead.telefono (some campaign) (some lead) none none).1]) := by
  rw [progLoop, hl]

theorem progLoop_length_le (campaign : Campaign) (now : Int) (proto : Nat → ProtoEnv)
    (mockId : Nat → String) :
    ∀ (agents : List Agent) (db : DB) (k : Nat) (acc : List OriginateResult),
      (progLoop campaign now proto mockId db agents k acc).1.length ≤
        acc.length + agents.length := by
  intro agents
  induction agents with
  | nil => intro db k acc; simp [progLoop_nil]
  | cons a rest ih =>
    intro db k acc
    cases hl : get_next_lead db campaign now with
    | none => rw [progLoop_cons_none hl]; simp
    | some lead =>
      rw [progLoop_cons_some hl]
      by_cases hdnc : isDnc db campaign.cuenta_id lead.telefono
      · rw [if_pos hdnc]
        have := ih (markLeadDnc db lead.id) k acc
        simp only [List.length_cons]
        omega
      · rw [if_neg hdnc]
        have := ih (originate_call db (proto k) (mockId k) now campaign.cuenta_id a
          lead.telefono (some campaign) (some lead) none none).2 (k + 1)
          (acc ++ [(originate_call db (proto k) (mockId k) now campaign.cuenta_id a
            lead.telefono (some campaign) (some lead) none none).1])
        simp only [List.length_append, List.length_cons, List.length_nil] at this ⊢
        omega

/-- C7: a progressive tick originates at most room = max_concurrent_calls
minus the active dialing count and at most one call per available agent,
and on the concrete scenario — two available agents, concurrency limit 5,
five pending leads and no DNC entries — exactly two calls are originated
and three leads remain pending. -/
theorem progressive_room_bound_and_scenario :
    (∀ (db : DB) (campaign : Campaign) (now : Int) (localTime localDow : Nat)
        (proto : Nat → ProtoEnv) (mockId : Nat → String),
      (run_progressive_dialer db campaign now localTime localDow proto mockId).1.length ≤
        campaign.max_concurrent_calls - get_active_calls_count db campaign.id ∧
      (run_progressive_dialer db campaign now localTime localDow proto mockId).1.length ≤
        (get_available_agents db campaign.id).length) ∧
    (run_progressive_dialer dbProg campA 0 0 1 protoOkF mockF).1.length = 2 ∧
    ((run_progressive_dialer dbProg campA 0 0 1 protoOkF mockF).2.campaign_leads.filter
      (fun l => decide (l.estado = CampaignLeadStatus.pending))).length = 3 := by
  refine ⟨?_, by decide, by decide⟩
  intro db campaign now localTime localDow proto mockId
  rw [run_progressive_dialer]
  by_cases h1 : campaign.estado ≠ CampaignStatus.running
  · rw [if_pos h1]; simp
  · rw [if_neg h1]
    by_cases h2 : (!is_campaign_in_schedule campaign localTime localDow) = true
    · rw [if_pos h2]; simp
    · rw [if_neg h2]
      by_cases h3 : (get_available_agents db campaign.id).isEmpty = true
      · rw [if_pos h3]; simp
      · rw [if_neg h3]
        by_cases h4 : campaign.max_concurrent_calls ≤ get_active_calls_count db campaign.id
        · rw [if_pos h4]; simp
        · rw [if_neg h4]
          have hlen := progLoop_length_le campaign now proto mockId
            ((get_available_agents db campaign.id).take
              (campaign.max_concurrent_calls - get_active_calls_count db campaign.id)) db 0 []
          simp only [List.length_nil, Nat.zero_add, List.length_take] at hlen
          exact ⟨by omega, by omega⟩

theorem originateFail_records {db : DB} (crId : Nat) (now : Int) (agent : Agent)
    (campaignLead : Option CampaignLead) (errMsg : String) :
    ∀ r ∈ (originateFail db crId now agent campaignLead errMsg).2.call_records,
      r.id = crId → r.resultado = "failed" ∧ r.ended_at = some now := by
  intro r hr hid
  simp only [originateFail, List.mem_map] at hr
  obtain ⟨r0, hr0, rfl⟩ := hr
  by_cases h : r0.id = crId
  · simp [h]
  · simp only [h, if_false] at hid ⊢

theorem originateFail_agents {db : DB} (crId : Nat) (now : Int) (agent : Agent)
    (campaignLead : Option CampaignLead) (errMsg : String) :
    ∀ a ∈ (originateFail db crId now agent campaignLead errMsg).2.agents,
      a.id = agent.id → a.estado = AgentStatus.available ∧ a.current_call_id = none := by
  intro a ha hid
  simp only [originateFail, List.mem_map] at ha
  obtain ⟨a0, ha0, rfl⟩ := ha
  by_cases h : a0.id = agent.id
  · simp [h]
  · simp only [h, if_false] at hid ⊢

theorem originateFail_leads {db : DB} (crId : Nat) (now : Int) (agent : Agent)
    (cl0 : CampaignLead) (errMsg : String) :
    ∀ l ∈ (originateFail db crId now agent (some cl0) errMsg).2.campaign_leads,
      l.id = cl0.id → l.estado = CampaignLeadStatus.failed := by
  intro l hl hid
  simp only [originateFail, List.mem_map] at hl
  obtain ⟨l0, hl0, rfl⟩ := hl
  by_cases h : l0.id = cl0.id
  · simp [h]
  · simp only [h, if_false] at hid ⊢

theorem originateFail_events {db : DB} (crId : Nat) (now : Int) (agent : Agent)
    (campaignLead : Option CampaignLead) (errMsg : String) :
    ∃ ev ∈ (originateFail db crId now agent campaignLead errMsg).2.call_events,
      ev.call_record_id = crId ∧ ev.evento = "failed" := by
  refine ⟨{ call_record_id := crId, evento := "failed", detalle := [("error", errMsg)] }, ?_, rfl, rfl⟩
  simp [originateFail]

theorem exists_id_mem_map {l : List CallRecord} (f : CallRecord → CallRecord)
    (hf : ∀ x, (f x).id = x.id) {i : Nat} (h : ∃ r ∈ l, r.id = i) :
    ∃ r ∈ l.map f, r.id = i := by
  obtain ⟨r, hr, hid⟩ := h
  exact ⟨f r, List.mem_map_of_mem f hr, by rw [hf r, hid]⟩

/-- C2: once originate_call resolves a PBX node, the full origination
contract holds — durable pre-protocol creation of the pending CallRecord,
originate event, ringing agent with bound call and dialing lead with
bumped attempt counter, plus failure rollback to a non-success result with
failed record and event, released agent and failed lead whenever the
protocol rejects or throws. -/
theorem originate_call_contract (db : DB) (proto : ProtoEnv) (mockId : String)
    (now : Int) (cuenta_id : Nat) (agent : Agent) (destino : String)
    (campaign : Option Campaign) (campaignLead : Option CampaignLead)
    (trunkArg : Option SipTrunk) (callerIdArg : Option String) (node : PbxNode)
    (hnode : resolveNode db cuenta_id agent campaign = some node) :
    OriginateContract db proto mockId now cuenta_id agent destino campaign
      campaignLead trunkArg callerIdArg := by
  have hbase : ∃ r ∈ (originateSetup db now cuenta_id agent destino campaign campaignLead
      (resolveTrunk db campaign trunkArg) callerIdArg).1.call_records, r.id = db.next_id := by
    exact ⟨_, List.mem_append_right _ (List.mem_singleton.mpr rfl), rfl⟩
  have houtErr : ∀ e, send_originate proto mockId = Except.error e →
      originate_call db proto mockId now cuenta_id agent destino campaign
        campaignLead trunkArg callerIdArg =
      originateFail (originateSetup db now cuenta_id agent destino campaign campaignLead
          (resolveTrunk db campaign trunkArg) callerIdArg).1 db.next_id
        now agent campaignLead ("AMI connection error: " ++ e) := by
    intro e he
    rw [originate_call, hnode, he]
    rfl
  have houtBad : ∀ resp, send_originate proto mockId = Except.ok resp →
      ¬ resp.response = "Success" →
      originate_call db proto mockId now cuenta_id agent destino campaign
        campaignLead trunkArg callerIdArg =
      originateFail (originateSetup db now cuenta_id agent destino campaign campaignLead
          (resolveTrunk db campaign trunkArg) callerIdArg).1 db.next_id
        now agent campaignLead ((resp.amiMessage).getD "Unknown AMI error") := by
    intro resp hr hne
    rw [originate_call, hnode, hr]
    exact if_neg hne
  have houtGood : ∀ resp, send_originate proto mockId = Except.ok resp →
      resp.response = "Success" →
      originate_call db proto mockId now cuenta_id agent destino campaign
        campaignLead trunkArg callerIdArg =
      ({ success := true, uniqueid := resp.amiUniqueid
       , message := "Call originated successfully", call_record_id := some db.next_id },
       { (originateSetup db now cuenta_id agent destino campaign campaignLead
           (resolveTrunk db campaign trunkArg) callerIdArg).1 with
         call_records := (originateSetup db now cuenta_id agent destino campaign campaignLead
           (resolveTrunk db campaign trunkArg) callerIdArg).1.call_records.map
             (fun r => if r.id = db.next_id then { r with uniqueid := resp.amiUniqueid } else r) }) := by
    intro resp hr hs
    rw [originate_call, hnode, hr]
    exact if_pos hs
  refine ⟨⟨_, rfl, rfl, rfl, rfl, rfl, rfl, rfl⟩, ⟨_, rfl, rfl, rfl⟩, ?_, ?_, ?_, ?_⟩
  · intro a ha
    simp only [originateSetup, List.mem_map] at ha
    obtain ⟨a0, ha0, rfl⟩ := ha
    intro hid
    by_cases h : a0.id = agent.id
    · simp [h]
    · simp only [h, if_false] at hid ⊢
  · intro cl0 hcl0
    subst hcl0
    rfl
  · cases hs : send_originate proto mockId with
    | error e =>
      rw [houtErr e hs]
      exact exists_id_mem_map _ (fun x => by by_cases hx : x.id = db.next_id <;> simp [hx]) hbase
    | ok resp =>
      by_cases hr : resp.response = "Success"
      · rw [houtGood resp hs hr]
        exact exists_id_mem_map _ (fun x => by by_cases hx : x.id = db.next_id <;> simp [hx]) hbase
      · rw [houtBad resp hs hr]
        exact exists_id_mem_map _ (fun x => by by_cases hx : x.id = db.next_id <;> simp [hx]) hbase
  · intro hfail
    have hform : originate_call db proto mockId now cuenta_id agent destino campaign
        campaignLead trunkArg callerIdArg =
        originateFail (originateSetup db now cuenta_id agent destino campaign campaignLead
          (resolveTrunk db campaign trunkArg) callerIdArg).1 db.next_id now agent campaignLead
          ((originate_call db proto mockId now cuenta_id agent destino campaign
            campaignLead trunkArg callerIdArg).1.message) := by
      rcases hfail with ⟨e, he⟩ | ⟨resp, hr, hne⟩
      · rw [houtErr e he]
        rfl
      · rw [houtBad resp hr hne]
        rfl
    rw [hform]
    refine ⟨rfl, rfl, originateFail_records _ _ _ _ _, originateFail_events _ _ _ _ _,
      originateFail_agents _ _ _ _ _, ?_⟩
    intro cl0 hcl0
    subst hcl0
    exact originateFail_leads _ _ _ _ _

theorem update_campaign_stats_leads (db : DB) (cid : Nat) :
    (update_campaign_stats db cid).campaign_leads = db.campaign_leads := by
  rw [update_campaign_stats]
  split <;> rfl

theorem update_campaign_stats_records (db : DB) (cid : Nat) :
    (update_campaign_stats db cid).call_records = db.call_records := by
  rw [update_campaign_stats]
  split <;> rfl

theorem update_campaign_stats_events (db : DB) (cid : Nat) :
    (update_campaign_stats db cid).call_events = db.call_events := by
  rw [update_campaign_stats]
  split <;> rfl

theorem stampActiveCall_leads (db : DB) (assigned : Option Nat) (did : Nat)
    (nota : Option String) (cod : String) :
    (stampActiveCall db assigned did nota cod).campaign_leads = db.campaign_leads := by
  rw [stampActiveCall]
  cases activeCallOf db assigned <;> rfl

theorem stampActiveCall_campaigns (db : DB) (assigned : Option Nat) (did : Nat)
    (nota : Option String) (cod : String) :
    (stampActiveCall db assigned did nota cod).campaigns = db.campaigns := by
  rw [stampActiveCall]
  cases activeCallOf db assigned <;> rfl

theorem activeCallOf_some {db : DB} {aid callId : Nat} {agent : Agent} {r0 : CallRecord}
    (hagent : db.agents.find? (fun a => decide (a.id = aid)) = some agent)
    (hcall : agent.current_call_id = some callId)
    (hrec : db.call_records.find? (fun r => decide (r.id = callId)) = some r0) :
    activeCallOf db (some aid) = some callId := by
  simp [activeCallOf, hagent, hcall, hrec]

theorem stampActiveCall_spec {db : DB} {callId : Nat} {assigned : Option Nat} (did : Nat)
    (nota : Option String) (cod : String)
    (hactive : activeCallOf db assigned = some callId) :
    (∀ r ∈ (stampActiveCall db assigned did nota cod).call_records, r.id = callId →
      r.disposition_id = some did ∧ r.disposition_nota = nota) ∧
    (∃ ev ∈ (stampActiveCall db assigned did nota cod).call_events,
      ev.call_record_id = callId ∧ ev.evento = "disposition") := by
  have hform : stampActiveCall db assigned did nota cod =
      { db with
        call_records := db.call_records.map (fun r =>
          if r.id = callId then
            { r with disposition_id := some did, disposition_nota := nota }
          else r)
      , call_events := db.call_events ++
          [{ call_record_id := callId, evento := "disposition"
           , detalle := [("disposition_code", cod)] }] } := by
    rw [stampActiveCall, hactive]
  rw [hform]
  constructor
  · intro r hr hid
    simp only [List.mem_map] at hr
    obtain ⟨r1, hr1, rfl⟩ := hr
    by_cases h : r1.id = callId
    · simp [h]
    · simp only [h, if_false] at hid ⊢
  · exact ⟨{ call_record_id := callId, evento := "disposition"
           , detalle := [("disposition_code", cod)] }, by simp, rfl, rfl⟩

/-- C8: applying a disposition to a found lead with a found disposition
sets the lead to scheduled storing exactly the given callback timestamp
when the disposition requires callback scheduling and one is given, else
to completed when the disposition is final, else to contacted; when the
lead's assigned agent holds an active call whose record exists, that
record is stamped with the same disposition and note and a disposition
CallEvent is appended; and the campaign's cached counters are recomputed
from the lead table. -/
theorem set_disposition_spec (db : DB) (cl_id disposition_id : Nat) (nota : Option String)
    (callback_at : Option Int) (cl : CampaignLead) (d : Disposition)
    (hcl : db.campaign_leads.find? (fun l => decide (l.id = cl_id)) = some cl)
    (hd : db.dispositions.find? (fun d1 => decide (d1.id = disposition_id)) = some d) :
    ∃ db', set_campaign_lead_disposition db cl_id disposition_id nota callback_at =
        Except.ok db' ∧
      (∀ t, d.requiere_reagendamiento = true → callback_at = some t →
        ∀ l ∈ db'.campaign_leads, l.id = cl_id →
          l.estado = CampaignLeadStatus.scheduled ∧ l.callback_at = some t ∧
          l.disposition_id = some disposition_id ∧ l.disposition_nota = nota) ∧
      ((d.requiere_reagendamiento = false ∨ callback_at = none) → d.es_final = true →
        ∀ l ∈ db'.campaign_leads, l.id = cl_id → l.estado = CampaignLeadStatus.completed) ∧
      ((d.requiere_reagendamiento = false ∨ callback_at = none) → d.es_final = false →
        ∀ l ∈ db'.campaign_leads, l.id = cl_id → l.estado = CampaignLeadStatus.contacted) ∧
      (∀ callId, activeCallOf db cl.assigned_agent_id = some callId →
        (∀ r ∈ db'.call_records, r.id = callId →
          r.disposition_id = some disposition_id ∧ r.disposition_nota = nota) ∧
        (∃ ev ∈ db'.call_events, ev.call_record_id = callId ∧ ev.evento = "disposition")) ∧
      (∀ c0, db.campaigns.find? (fun c => decide (c.id = cl.campaign_id)) = some c0 →
        ∀ c' ∈ db'.campaigns, c'.id = cl.campaign_id →
          c'.total_leads = (db'.campaign_leads.filter (fun l =>
            decide (l.campaign_id = cl.campaign_id))).length ∧
          c'.leads_contacted =
            (db'.campaign_leads.filter (fun l => decide
              (l.campaign_id = cl.campaign_id ∧
               l.estado = CampaignLeadStatus.contacted))).length +
            (db'.campaign_leads.filter (fun l => decide
              (l.campaign_id = cl.campaign_id ∧
               l.estado = CampaignLeadStatus.completed))).length ∧
          c'.leads_pending = (db'.campaign_leads.filter (fun l => decide
            (l.campaign_id = cl.campaign_id ∧
             l.estado = CampaignLeadStatus.pending))).length) := by
  have hrun : set_campaign_lead_disposition db cl_id disposition_id nota callback_at =
      Except.ok (update_campaign_stats
        (stampActiveCall
          { db with campaign_leads := db.campaign_leads.map (fun l =>
              if l.id = cl_id then
                { l with disposition_id := some disposition_id
                       , disposition_nota := nota
                       , estado :=
                           if d.requiere_reagendamiento ∧ callback_at.isSome then
                             CampaignLeadStatus.scheduled
                           else if d.es_final then CampaignLeadStatus.completed
                           else if d.es_contacto then CampaignLeadStatus.contacted
                           else CampaignLeadStatus.contacted
                       , callback_at :=
                           if d.requiere_reagendamiento ∧ callback_at.isSome then callback_at
                           else l.callback_at }
              else l) }
          cl.assigned_agent_id disposition_id nota d.codigo)
        cl.campaign_id) := by
    rw [set_campaign_lead_disposition, hcl, hd]
  refine ⟨_, hrun, ?_, ?_, ?_, ?_, ?_⟩
  · intro t hreq hcb
    intro l hl hid
    rw [update_campaign_stats_leads, stampActiveCall_leads] at hl
    simp only [List.mem_map] at hl
    obtain ⟨l0, hl0, rfl⟩ := hl
    by_cases h : l0.id = cl_id
    · simp [h, hreq, hcb]
    · simp only [h, if_false] at hid ⊢
  · intro hnc hf
    intro l hl hid
    rw [update_campaign_stats_leads, stampActiveCall_leads] at hl
    simp only [List.mem_map] at hl
    obtain ⟨l0, hl0, rfl⟩ := hl
    by_cases h : l0.id = cl_id
    · have hcond : ¬ (d.requiere_reagendamiento = true ∧ callback_at.isSome = true) := by
        rcases hnc with hnc | hnc <;> simp [hnc]
      simp [h, hcond, hf]
    · simp only [h, if_false] at hid ⊢
  · intro hnc hf
    intro l hl hid
    rw [update_campaign_stats_leads, stampActiveCall_leads] at hl
    simp only [List.mem_map] at hl
    obtain ⟨l0, hl0, rfl⟩ := hl
    by_cases h : l0.id = cl_id
    · have hcond : ¬ (d.requiere_reagendamiento = true ∧ callback_at.isSome = true) := by
        rcases hnc with hnc | hnc <;> simp [hnc]
      by_cases hcont : d.es_contacto = true <;> simp [h, hcond, hf, hcont]
    · simp only [h, if_false] at hid ⊢
  · intro callId hactive
    have hactive1 : activeCallOf
        { db with campaign_leads := db.campaign_leads.map (fun l =>
            if l.id = cl_id then
              { l with disposition_id := some disposition_id
                     , disposition_nota := nota
                     , estado :=
                         if d.requiere_reagendamiento ∧ callback_at.isSome then
                           CampaignLeadStatus.scheduled
                         else if d.es_final then CampaignLeadStatus.completed
                         else if d.es_contacto then CampaignLeadStatus.contacted
                         else CampaignLeadStatus.contacted
                     , callback_at :=
                         if d.requiere_reagendamiento ∧ callback_at.isSome then callback_at
                         else l.callback_at }
            else l) }
        cl.assigned_agent_id = some callId := hactive
    have hspec := stampActiveCall_spec disposition_id nota d.codigo hactive1
    constructor
    · intro r hr
      rw [update_campaign_stats_records] at hr
      exact hspec.1 r hr
    · rw [update_campaign_stats_events]
      exact hspec.2
  · intro c0 hc0
    have hfind : (stampActiveCall
        { db with campaign_leads := db.campaign_leads.map (fun l =>
            if l.id = cl_id then
              { l with disposition_id := some disposition_id
                     , disposition_nota := nota
                     , estado :=
                         if d.requiere_reagendamiento ∧ callback_at.isSome then
                           CampaignLeadStatus.scheduled
                         else if d.es_final then CampaignLeadStatus.completed
                         else if d.es_contacto then CampaignLeadStatus.contacted
                         else CampaignLeadStatus.contacted
                     , callback_at :=
                         if d.requiere_reagendamiento ∧ callback_at.isSome then callback_at
                         else l.callback_at }
            else l) }
        cl.assigned_agent_id disposition_id nota d.codigo).campaigns.find?
        (fun c => decide (c.id = cl.campaign_id)) = some c0 := by
      rw [stampActiveCall_campaigns]
      exact hc0
    rw [update_campaign_stats_found hfind]
    intro c' hc' hcid
    simp only [List.mem_map] at hc'
    obtain ⟨c1, hc1, rfl⟩ := hc'
    by_cases h : c1.id = cl.campaign_id
    · simp only [h, if_true]
      refine ⟨?_, ?_, ?_⟩ <;>
        simp only [update_campaign_stats_leads, stampActiveCall_leads]
    · simp only [h, if_false] at hcid ⊢

/-- C8 witness: the callback disposition schedules the concrete lead with
the exact timestamp, and the final disposition completes it. -/
theorem set_disposition_spec_witness :
    (∃ db', set_campaign_lead_disposition dbDisp 10 40 (some "n") (some 500) =
        Except.ok db' ∧
      ∀ l ∈ db'.campaign_leads, l.id = 10 →
        l.estado = CampaignLeadStatus.scheduled ∧ l.callback_at = some 500) ∧
    (∃ db', set_campaign_lead_disposition dbDisp 10 41 none none = Except.ok db' ∧
      ∀ l ∈ db'.campaign_leads, l.id = 10 → l.estado = CampaignLeadStatus.completed) := by
  constructor
  · obtain ⟨db', hrun, h1, -, -, -, -⟩ :=
      set_disposition_spec dbDisp 10 40 (some "n") (some 500)
        { leadN 10 "p10" with assigned_agent_id := some 2 } dispCallback
        (by decide) (by decide)
    exact ⟨db', hrun, fun l hl hid =>
      ⟨(h1 500 rfl rfl l hl hid).1, (h1 500 rfl rfl l hl hid).2.1⟩⟩
  · obtain ⟨db', hrun, -, h2, -, -, -⟩ :=
      set_disposition_spec dbDisp 10 41 none none
        { leadN 10 "p10" with assigned_agent_id := some 2 } dispFinal
        (by decide) (by decide)
    exact ⟨db', hrun, fun l hl hid => h2 (Or.inr rfl) rfl l hl hid⟩

theorem manual_call_agent_none {db : DB} {proto : ProtoEnv} {mockId : String} {now : Int}
    {cuenta_id agent_id campaign_lead_id : Nat}
    (h : db.agents.find?
      (fun a => decide (a.id = agent_id ∧ a.cuenta_id = cuenta_id ∧ a.activo = true)) = none) :
    manual_call db proto mockId now cuenta_id agent_id campaign_lead_id =
      ({ success := false, uniqueid := none, message := "Agent not found or inactive"
       , call_record_id := none }, db) := by
  rw [manual_call, h]

theorem manual_call_agent_some {db : DB} {proto : ProtoEnv} {mockId : String} {now : Int}
    {cuenta_id agent_id campaign_lead_id : Nat} {agent : Agent}
    (h : db.agents.find?
      (fun a => decide (a.id = agent_id ∧ a.cuenta_id = cuenta_id ∧ a.activo = true)) =
      some agent) :
    manual_call db proto mockId now cuenta_id agent_id campaign_lead_id =
      manual_call_with_agent db proto mockId now cuenta_id agent campaign_lead_id := by
  rw [manual_call, h]

theorem manual_call_with_agent_lead_some {db : DB} {proto : ProtoEnv} {mockId : String}
    {now : Int} {cuenta_id campaign_lead_id : Nat} {agent : Agent} {cl : CampaignLead}
    (hstate : ¬ (agent.estado ≠ AgentStatus.available ∧ agent.estado ≠ AgentStatus.wrap_up))
    (hcl : db.campaign_leads.find? (fun l => decide (l.id = campaign_lead_id)) = some cl) :
    manual_call_with_agent db proto mockId now cuenta_id agent campaign_lead_id =
      manual_call_with_lead db proto mockId now cuenta_id agent cl := by
  rw [manual_call_with_agent, if_neg hstate, hcl]

theorem manual_call_with_lead_some {db : DB} {proto : ProtoEnv} {mockId : String}
    {now : Int} {cuenta_id : Nat} {agent : Agent} {cl : CampaignLead} {campaign : Campaign}
    (hC : db.campaigns.find? (fun c1 => decide (c1.id = cl.campaign_id)) = some campaign) :
    manual_call_with_lead db proto mockId now cuenta_id agent cl =
      (if isDnc db cuenta_id cl.telefono then
        ({ success := false, uniqueid := none, message := "Number is on DNC list"
         , call_record_id := none }, markLeadDnc db cl.id)
      else if campaign.max_retries ≤ cl.intentos then
        ({ success := false, uniqueid := none, message := "Max retries reached for this lead"
         , call_record_id := none }, db)
      else
        originate_call db proto mockId now cuenta_id agent cl.telefono
          (some campaign) (some cl) none none) := by
  rw [manual_call_with_lead, hC]

theorem manual_call_precheck {db : DB} {proto : ProtoEnv} {mockId : String} {now : Int}
    {cuenta_id agent_id campaign_lead_id : Nat}
    (hfail : manualCallPrecheckFails db cuenta_id agent_id campaign_lead_id) :
    (manual_call db proto mockId now cuenta_id agent_id campaign_lead_id).1.success = false ∧
    (manual_call db proto mockId now cuenta_id agent_id campaign_lead_id).1.call_record_id = none ∧
    (manual_call db proto mockId now cuenta_id agent_id campaign_lead_id).2.call_records =
      db.call_records := by
  rcases hfail with h | ⟨agent, hA, hna, hnw⟩ | h | ⟨cl, hcl, hC⟩ | ⟨cl, hcl, hdnc⟩ |
    ⟨cl, c, hcl, hC, hretry⟩
  · rw [manual_call_agent_none h]
    exact ⟨rfl, rfl, rfl⟩
  · rw [manual_call_agent_some hA, manual_call_with_agent, if_pos ⟨hna, hnw⟩]
    exact ⟨rfl, rfl, rfl⟩
  · cases hA : db.agents.find?
        (fun a => decide (a.id = agent_id ∧ a.cuenta_id = cuenta_id ∧ a.activo = true)) with
    | none => rw [manual_call_agent_none hA]; exact ⟨rfl, rfl, rfl⟩
    | some agent =>
      rw [manual_call_agent_some hA]
      by_cases hstate : agent.estado ≠ AgentStatus.available ∧ agent.estado ≠ AgentStatus.wrap_up
      · rw [manual_call_with_agent, if_pos hstate]; exact ⟨rfl, rfl, rfl⟩
      · rw [manual_call_with_agent, if_neg hstate, h]; exact ⟨rfl, rfl, rfl⟩
  · cases hA : db.agents.find?
        (fun a => decide (a.id = agent_id ∧ a.cuenta_id = cuenta_id ∧ a.activo = true)) with
    | none => rw [manual_call_agent_none hA]; exact ⟨rfl, rfl, rfl⟩
    | some agent =>
      rw [manual_call_agent_some hA]
      by_cases hstate : agent.estado ≠ AgentStatus.available ∧ agent.estado ≠ AgentStatus.wrap_up
      · rw [manual_call_with_agent, if_pos hstate]; exact ⟨rfl, rfl, rfl⟩
      · rw [manual_call_with_agent_lead_some hstate hcl, manual_call_with_lead, hC]
        exact ⟨rfl, rfl, rfl⟩
  · cases hA : db.agents.find?
        (fun a => decide (a.id = agent_id ∧ a.cuenta_id = cuenta_id ∧ a.activo = true)) with
    | none => rw [manual_call_agent_none hA]; exact ⟨rfl, rfl, rfl⟩
    | some agent =>
      rw [manual_call_agent_some hA]
      by_cases hstate : agent.estado ≠ AgentStatus.available ∧ agent.estado ≠ AgentStatus.wrap_up
      · rw [manual_call_with_agent, if_pos hstate]; exact ⟨rfl, rfl, rfl⟩
      · rw [manual_call_with_agent_lead_some hstate hcl]
        cases hC2 : db.campaigns.find? (fun c1 => decide (c1.id = cl.campaign_id)) with
        | none => rw [manual_call_with_lead, hC2]; exact ⟨rfl, rfl, rfl⟩
        | some c =>
          rw [manual_call_with_lead_some hC2, if_pos hdnc]
          exact ⟨rfl, rfl, rfl⟩
  · cases hA : db.agents.find?
        (fun a => decide (a.id = agent_id ∧ a.cuenta_id = cuenta_id ∧ a.activo = true)) with
    | none => rw [manual_call_agent_none hA]; exact ⟨rfl, rfl, rfl⟩
    | some agent =>
      rw [manual_call_agent_some hA]
      by_cases hstate : agent.estado ≠ AgentStatus.available ∧ agent.estado ≠ AgentStatus.wrap_up
      · rw [manual_call_with_agent, if_pos hstate]; exact ⟨rfl, rfl, rfl⟩
      · rw [manual_call_with_agent_lead_some hstate hcl]
        by_cases hdnc2 : isDnc db cuenta_id cl.telefono
        · rw [manual_call_with_lead_some hC, if_pos hdnc2]; exact ⟨rfl, rfl, rfl⟩
        · rw [manual_call_with_lead_some hC, if_neg hdnc2, if_pos hretry]
          exact ⟨rfl, rfl, rfl⟩

/-- C10: the manual-call endpoint always answers with a non-null call_id —
whenever manual_call refuses before creating any CallRecord (agent missing
or unavailable, lead or campaign missing, DNC hit, or retries exhausted),
the response's status is error, its call_id is the freshly generated uuid,
the call-record table is untouched, and that call_id identifies no
CallRecord. -/
theorem make_manual_call_fresh_uuid (db : DB) (campaign_id agent_id campaign_lead_id : Nat)
    (proto : ProtoEnv) (mockId : String) (now : Int) (freshUuid : Nat) (campaign : Campaign)
    (hcamp : db.campaigns.find? (fun c => decide (c.id = campaign_id)) = some campaign)
    (hfail : manualCallPrecheckFails db campaign.cuenta_id agent_id campaign_lead_id)
    (hfresh : freshUuid ∉ db.call_records.map (fun r => r.id)) :
    ∃ resp db',
      make_manual_call db campaign_id agent_id campaign_lead_id proto mockId now freshUuid =
        Except.ok (resp, db') ∧
      resp.status = "error" ∧ resp.call_id = freshUuid ∧
      db'.call_records = db.call_records ∧
      resp.call_id ∉ db'.call_records.map (fun r => r.id) := by
  have h := @manual_call_precheck db proto mockId now campaign.cuenta_id agent_id
    campaign_lead_id hfail
  have hrun : make_manual_call db campaign_id agent_id campaign_lead_id proto mockId now
      freshUuid = Except.ok
      ({ call_id := (manual_call db proto mockId now campaign.cuenta_id agent_id
           campaign_lead_id).1.call_record_id.getD freshUuid
       , uniqueid := (manual_call db proto mockId now campaign.cuenta_id agent_id
           campaign_lead_id).1.uniqueid
       , status := if (manual_call db proto mockId now campaign.cuenta_id agent_id
           campaign_lead_id).1.success then "success" else "error"
       , message := (manual_call db proto mockId now campaign.cuenta_id agent_id
           campaign_lead_id).1.message },
       (manual_call db proto mockId now campaign.cuenta_id agent_id campaign_lead_id).2) := by
    rw [make_manual_call, hcamp]
  refine ⟨_, _, hrun, ?_, ?_, h.2.2, ?_⟩
  · simp only [h.1]
    rfl
  · rw [h.2.1]
    rfl
  · rw [h.2.1, h.2.2]
    exact hfresh

/-- C10 witness: with the first lead's phone on the DNC list, the endpoint
refuses the call and returns the fresh uuid 99, which identifies no
CallRecord. -/
theorem make_manual_call_fresh_uuid_witness :
    ∃ resp db',
      make_manual_call dbDnc 1 2 10 protoOk "m" 0 99 = Except.ok (resp, db') ∧
      resp.status = "error" ∧ resp.call_id = 99 ∧
      db'.call_records = dbDnc.call_records ∧
      resp.call_id ∉ db'.call_records.map (fun r => r.id) :=
  make_manual_call_fresh_uuid dbDnc 1 2 10 protoOk "m" 0 99 campA (by decide)
    (Or.inr (Or.inr (Or.inr (Or.inr (Or.inl ⟨leadN 10 "p10", by decide, by decide⟩)))))
    (by decide)

theorem originate_call_node_none {db : DB} {proto : ProtoEnv} {mockId : String} {now : Int}
    {cuenta_id : Nat} {agent : Agent} {destino : String} {campaign : Option Campaign}
    {campaignLead : Option CampaignLead} {trunkArg : Option SipTrunk}
    {callerIdArg : Option String}
    (h : resolveNode db cuenta_id agent campaign = none) :
    originate_call db proto mockId now cuenta_id agent destino campaign campaignLead
      trunkArg callerIdArg =
    ({ success := false, uniqueid := none, message := "No active PBX node found"
     , call_record_id := none }, db) := by
  rw [originate_call, h]

theorem originate_call_err {db : DB} {proto : ProtoEnv} {mockId : String} {now : Int}
    {cuenta_id : Nat} {agent : Agent} {destino : String} {campaign : Option Campaign}
    {campaignLead : Option CampaignLead} {trunkArg : Option SipTrunk}
    {callerIdArg : Option String} {node : PbxNode} {e : String}
    (hnode : resolveNode db cuenta_id agent campaign = some node)
    (he : send_originate proto mockId = Except.error e) :
    originate_call db proto mockId now cuenta_id agent destino campaign campaignLead
      trunkArg callerIdArg =
    originateFail (originateSetup db now cuenta_id agent destino campaign campaignLead
        (resolveTrunk db campaign trunkArg) callerIdArg).1 db.next_id now agent campaignLead
      ("AMI connection error: " ++ e) := by
  rw [originate_call, hnode, he]
  rfl

theorem originate_call_bad {db : DB} {proto : ProtoEnv} {mockId : String} {now : Int}
    {cuenta_id : Nat} {agent : Agent} {destino : String} {campaign : Option Campaign}
    {campaignLead : Option CampaignLead} {trunkArg : Option SipTrunk}
    {callerIdArg : Option String} {node : PbxNode} {resp : AmiResponse}
    (hnode : resolveNode db cuenta_id agent campaign = some node)
    (hr : send_originate proto mockId = Except.ok resp)
    (hne : ¬ resp.response = "Success") :
    originate_call db proto mockId now cuenta_id agent destino campaign campaignLead
      trunkArg callerIdArg =
    originateFail (originateSetup db now cuenta_id agent destino campaign campaignLead
        (resolveTrunk db campaign trunkArg) callerIdArg).1 db.next_id now agent campaignLead
      ((resp.amiMessage).getD "Unknown AMI error") := by
  rw [originate_call, hnode, hr]
  exact if_neg hne

theorem originate_call_good {db : DB} {proto : ProtoEnv} {mockId : String} {now : Int}
    {cuenta_id : Nat} {agent : Agent} {destino : String} {campaign : Option Campaign}
    {campaignLead : Option CampaignLead} {trunkArg : Option SipTrunk}
    {callerIdArg : Option String} {node : PbxNode} {resp : AmiResponse}
    (hnode : resolveNode db cuenta_id agent campaign = some node)
    (hr : send_originate proto mockId = Except.ok resp)
    (hs : resp.response = "Success") :
    originate_call db proto mockId now cuenta_id agent destino campaign campaignLead
      trunkArg callerIdArg =
    ({ success := true, uniqueid := resp.amiUniqueid
     , message := "Call originated successfully", call_record_id := some db.next_id },
     { (originateSetup db now cuenta_id agent destino campaign campaignLead
         (resolveTrunk db campaign trunkArg) callerIdArg).1 with
       call_records := (originateSetup db now cuenta_id agent destino campaign campaignLead
         (resolveTrunk db campaign trunkArg) callerIdArg).1.call_records.map
           (fun r => if r.id = db.next_id then { r with uniqueid := resp.amiUniqueid } else r) }) := by
  rw [originate_call, hnode, hr]
  exact if_pos hs

theorem originate_call_dnc_entries (db : DB) (proto : ProtoEnv) (mockId : String)
    (now : Int) (cuenta_id : Nat) (agent : Agent) (destino : String)
    (campaign : Option Campaign) (campaignLead : Option CampaignLead)
    (trunkArg : Option SipTrunk) (callerIdArg : Option String) :
    (originate_call db proto mockId now cuenta_id agent destino campaign campaignLead
      trunkArg callerIdArg).2.dnc_entries = db.dnc_entries := by
  cases hn : resolveNode db cuenta_id agent campaign with
  | none => rw [originate_call_node_none hn]
  | some node =>
    cases hs : send_originate proto mockId with
    | error e =>
      rw [originate_call_err hn hs]
      cases campaignLead <;> rfl
    | ok resp =>
      by_cases hr : resp.response = "Success"
      · rw [originate_call_good hn hs hr]
        cases campaignLead <;> rfl
      · rw [originate_call_bad hn hs hr]
        cases campaignLead <;> rfl

theorem originate_call_new_records (db : DB) (proto : ProtoEnv) (mockId : String)
    (now : Int) (cuenta_id : Nat) (agent : Agent) (destino : String)
    (campaign : Option Campaign) (campaignLead : Option CampaignLead)
    (trunkArg : Option SipTrunk) (callerIdArg : Option String) :
    ∀ r ∈ (originate_call db proto mockId now cuenta_id agent destino campaign campaignLead
      trunkArg callerIdArg).2.call_records,
      (∃ r0 ∈ db.call_records, r0.id = r.id ∧ r0.destino = r.destino) ∨
      r.destino = destino := by
  have hsetup : ∀ r ∈ (originateSetup db now cuenta_id agent destino campaign campaignLead
      (resolveTrunk db campaign trunkArg) callerIdArg).1.call_records,
      (∃ r0 ∈ db.call_records, r0.id = r.id ∧ r0.destino = r.destino) ∨
      r.destino = destino := by
    intro r hr
    rcases List.mem_append.mp hr with hr | hr
    · exact Or.inl ⟨r, hr, rfl, rfl⟩
    · rw [List.mem_singleton.mp hr]
      exact Or.inr rfl
  intro r hr
  cases hn : resolveNode db cuenta_id agent campaign with
  | none =>
    rw [originate_call_node_none hn] at hr
    exact Or.inl ⟨r, hr, rfl, rfl⟩
  | some node =>
    cases hs : send_originate proto mockId with
    | error e =>
      rw [originate_call_err hn hs] at hr
      simp only [originateFail, List.mem_map] at hr
      obtain ⟨r0, hr0, rfl⟩ := hr
      have := hsetup r0 hr0
      by_cases h : r0.id = db.next_id
      · simp only [h, if_true]
        rw [h] at this
        exact this
      · simp only [h, if_false]
        exact this
    | ok resp =>
      by_cases hrr : resp.response = "Success"
      · rw [originate_call_good hn hs hrr] at hr
        simp only [List.mem_map] at hr
        obtain ⟨r0, hr0, rfl⟩ := hr
        have := hsetup r0 hr0
        by_cases h : r0.id = db.next_id
        · simp only [h, if_true]
          rw [h] at this
          exact this
        · simp only [h, if_false]
          exact this
      · rw [originate_call_bad hn hs hrr] at hr
        simp only [originateFail, List.mem_map] at hr
        obtain ⟨r0, hr0, rfl⟩ := hr
        have := hsetup r0 hr0
        by_cases h : r0.id = db.next_id
        · simp only [h, if_true]
          rw [h] at this
          exact this
        · simp only [h, if_false]
          exact this

theorem markLeadDnc_marks (db : DB) (i : Nat) : leadMarked (markLeadDnc db i) i := by
  intro l hl hid
  simp only [markLeadDnc, List.mem_map] at hl
  obtain ⟨l0, hl0, rfl⟩ := hl
  by_cases h : l0.id = i
  · simp [h]
  · simp only [h, if_false] at hid ⊢

theorem markLeadDnc_preserves {db : DB} {i : Nat} (j : Nat) (h : leadMarked db i) :
    leadMarked (markLeadDnc db j) i := by
  intro l hl hid
  simp only [markLeadDnc, List.mem_map] at hl
  obtain ⟨l0, hl0, rfl⟩ := hl
  by_cases hj : l0.id = j
  · simp [hj]
  · simp only [hj, if_false] at hid ⊢
    exact h l0 hl0 hid

theorem leadMarked_map_update {leads : List CampaignLead} {i : Nat} (cid : Nat)
    (g : CampaignLead → CampaignLead) (hg : ∀ l, (g l).id = l.id)
    (hmark : ∀ l ∈ leads, l.id = i → l.estado = CampaignLeadStatus.dnc)
    (hne : cid ≠ i) :
    ∀ l ∈ leads.map (fun l => if l.id = cid then g l else l), l.id = i →
      l.estado = CampaignLeadStatus.dnc := by
  intro l hl hid
  simp only [List.mem_map] at hl
  obtain ⟨l0, hl0, rfl⟩ := hl
  by_cases h : l0.id = cid
  · rw [if_pos h] at hid ⊢
    rw [hg] at hid
    exact absurd (h.symm.trans hid) hne
  · rw [if_neg h] at hid ⊢
    exact hmark l0 hl0 hid

theorem get_next_lead_mem {db : DB} {campaign : Campaign} {now : Int} {l : CampaignLead}
    (h : get_next_lead db campaign now = some l) :
    l ∈ db.campaign_leads ∧ l.estado ≠ CampaignLeadStatus.dnc := by
  have hGN : l ∈ dueCallbacks db campaign now ∨ l ∈ dueRetries db campaign now ∨
      l ∈ pendingLeads db campaign := by
    rw [get_next_lead] at h
    cases h1 : firstMinBy (fun x => x.callback_at.getD 0) (dueCallbacks db campaign now) with
    | some y =>
      rw [h1] at h; simp at h; subst h; exact Or.inl (firstMinBy_mem h1)
    | none =>
      rw [h1] at h
      cases h2 : firstMinBy (fun x => x.proximo_intento.getD 0) (dueRetries db campaign now) with
      | some y =>
        rw [h2] at h; simp at h; subst h; exact Or.inr (Or.inl (firstMinBy_mem h2))
      | none =>
        rw [h2] at h; exact Or.inr (Or.inr (firstMinBy_mem h))
  rcases hGN with hm | hm | hm
  · have hmf := List.mem_filter.mp hm
    refine ⟨hmf.1, ?_⟩
    have hp := hmf.2
    simp only [Bool.and_eq_true, decide_eq_true_eq] at hp
    rw [hp.1.2]
    decide
  · have hmf := List.mem_filter.mp hm
    refine ⟨hmf.1, ?_⟩
    have hp := hmf.2
    simp only [Bool.and_eq_true, decide_eq_true_eq] at hp
    rcases hp.1.2.1 with hs | hs | hs <;> rw [hs] <;> decide
  · have hmf := List.mem_filter.mp hm
    refine ⟨hmf.1, ?_⟩
    have hp := hmf.2
    simp only [decide_eq_true_eq] at hp
    rw [hp.2]
    decide

theorem originate_preserves_marked {db : DB} {i : Nat} (proto : ProtoEnv) (mockId : String)
    (now : Int) (cuenta_id : Nat) (agent : Agent) (destino : String)
    (campaign : Option Campaign) {cl : CampaignLead}
    (hm : leadMarked db i) (hcl : cl ∈ db.campaign_leads)
    (hnd : cl.estado ≠ CampaignLeadStatus.dnc) :
    leadMarked (originate_call db proto mockId now cuenta_id agent destino campaign
      (some cl) none none).2 i := by
  have hne : cl.id ≠ i := by
    intro hci
    exact hnd (hm cl hcl hci)
  have hsetup : ∀ l ∈ (originateSetup db now cuenta_id agent destino campaign (some cl)
      (resolveTrunk db campaign none) none).1.campaign_leads, l.id = i →
      l.estado = CampaignLeadStatus.dnc := by
    exact leadMarked_map_update cl.id _ (fun l => rfl) hm hne
  cases hn : resolveNode db cuenta_id agent campaign with
  | none =>
    rw [originate_call_node_none hn]
    exact hm
  | some node =>
    cases hs : send_originate proto mockId with
    | error e =>
      rw [originate_call_err hn hs]
      exact leadMarked_map_update cl.id _ (fun l => rfl) hsetup hne
    | ok resp =>
      by_cases hr : resp.response = "Success"
      · rw [originate_call_good hn hs hr]
        exact hsetup
      · rw [originate_call_bad hn hs hr]
        exact leadMarked_map_update cl.id _ (fun l => rfl) hsetup hne

theorem progLoop_preserves_marked (campaign : Campaign) (now : Int)
    (proto : Nat → ProtoEnv) (mockId : Nat → String) (i : Nat) :
    ∀ (agents : List Agent) (db : DB) (k : Nat) (acc : List OriginateResult),
      leadMarked db i →
      leadMarked (progLoop campaign now proto mockId db agents k acc).2 i := by
  intro agents
  induction agents with
  | nil => intro db k acc h; rw [progLoop_nil]; exact h
  | cons a rest ih =>
    intro db k acc h
    cases hl : get_next_lead db campaign now with
    | none => rw [progLoop_cons_none hl]; exact h
    | some lead =>
      rw [progLoop_cons_some hl]
      by_cases hdnc : isDnc db campaign.cuenta_id lead.telefono
      · rw [if_pos hdnc]
        exact ih _ _ _ (markLeadDnc_preserves lead.id h)
      · rw [if_neg hdnc]
        exact ih _ _ _ (originate_preserves_marked (proto k) (mockId k) now
          campaign.cuenta_id a lead.telefono (some campaign) h
          (get_next_lead_mem hl).1 (get_next_lead_mem hl).2)

theorem predLoop_zero (campaign : Campaign) (now : Int) (proto : Nat → ProtoEnv)
    (mockId : Nat → String) (agents : List Agent) (db : DB) (agentIdx : Nat)
    (acc : List OriginateResult) :
    predLoop campaign now proto mockId agents db 0 agentIdx acc = (acc, db) := rfl

theorem predLoop_succ_none {campaign : Campaign} {now : Int} {proto : Nat → ProtoEnv}
    {mockId : Nat → String} {agents : List Agent} {db : DB} {n agentIdx : Nat}
    {acc : List OriginateResult} (hl : get_next_lead db campaign now = none) :
    predLoop campaign now proto mockId agents db (n + 1) agentIdx acc = (acc, db) := by
  rw [predLoop, hl]

theorem predLoop_succ_some {campaign : Campaign} {now : Int} {proto : Nat → ProtoEnv}
    {mockId : Nat → String} {agents : List Agent} {db : DB} {n agentIdx : Nat}
    {acc : List OriginateResult} {lead : CampaignLead}
    (hl : get_next_lead db campaign now = some lead) :
    predLoop campaign now proto mockId agents db (n + 1) agentIdx acc =
      if isDnc db campaign.cuenta_id lead.telefono then
        predLoop campaign now proto mockId agents (markLeadDnc db lead.id) n agentIdx acc
      else
        predLoop campaign now proto mockId agents
          (originate_call db (proto agentIdx) (mockId agentIdx) now campaign.cuenta_id
            (agents.getD (agentIdx % agents.length) default) lead.telefono
            (some campaign) (some lead) none none).2 n (agentIdx + 1)
          (acc ++ [(originate_call db (proto agentIdx) (mockId agentIdx) now campaign.cuenta_id
            (agents.getD (agentIdx % agents.length) default) lead.telefono
            (some campaign) (some lead) none none).1]) := by
  rw [predLoop, hl]

theorem predLoop_preserves_marked (campaign : Campaign) (now : Int)
    (proto : Nat → ProtoEnv) (mockId : Nat → String) (agents : List Agent) (i : Nat) :
    ∀ (n : Nat) (db : DB) (agentIdx : Nat) (acc : List OriginateResult),
      leadMarked db i →
      leadMarked (predLoop campaign now proto mockId agents db n agentIdx acc).2 i := by
  intro n
  induction n with
  | zero => intro db agentIdx acc h; rw [predLoop_zero]; exact h
  | succ n ih =>
    intro db agentIdx acc h
    cases hl : get_next_lead db campaign now with
    | none => rw [predLoop_succ_none hl]; exact h
    | some lead =>
      rw [predLoop_succ_some hl]
      by_cases hdnc : isDnc db campaign.cuenta_id lead.telefono
      · rw [if_pos hdnc]
        exact ih _ _ _ (markLeadDnc_preserves lead.id h)
      · rw [if_neg hdnc]
        exact ih _ _ _ (originate_preserves_marked (proto agentIdx) (mockId agentIdx) now
          campaign.cuenta_id _ lead.telefono (some campaign) h
          (get_next_lead_mem hl).1 (get_next_lead_mem hl).2)

theorem isDnc_congr {db1 db2 : DB} (h : db1.dnc_entries = db2.dnc_entries)
    (cuenta_id : Nat) (telefono : String) :
    isDnc db1 cuenta_id telefono = isDnc db2 cuenta_id telefono := by
  unfold isDnc
  rw [h]

theorem progLoop_new_records (campaign : Campaign) (now : Int)
    (proto : Nat → ProtoEnv) (mockId : Nat → String) (db0 : DB) (n0 : Nat) :
    ∀ (agents : List Agent) (db : DB) (k : Nat) (acc : List OriginateResult),
      db.dnc_entries = db0.dnc_entries →
      (∀ r ∈ db.call_records, n0 ≤ r.id → isDnc db0 campaign.cuenta_id r.destino = false) →
      ∀ r ∈ (progLoop campaign now proto mockId db agents k acc).2.call_records,
        n0 ≤ r.id → isDnc db0 campaign.cuenta_id r.destino = false := by
  intro agents
  induction agents with
  | nil => intro db k acc _ hinv; rw [progLoop_nil]; exact hinv
  | cons a rest ih =>
    intro db k acc hE hinv
    cases hl : get_next_lead db campaign now with
    | none => rw [progLoop_cons_none hl]; exact hinv
    | some lead =>
      rw [progLoop_cons_some hl]
      by_cases hdnc : isDnc db campaign.cuenta_id lead.telefono
      · rw [if_pos hdnc]
        exact ih _ _ _ hE hinv
      · rw [if_neg hdnc]
        refine ih _ _ _ ?_ ?_
        · rw [originate_call_dnc_entries]
          exact hE
        · intro r hr hn0
          rcases originate_call_new_records db (proto k) (mockId k) now campaign.cuenta_id a
            lead.telefono (some campaign) (some lead) none none r hr with hm | hm
          · obtain ⟨r0, hr0, hid, hdest⟩ := hm
            rw [← hdest]
            exact hinv r0 hr0 (by rw [hid]; exact hn0)
          · rw [hm]
            rw [← isDnc_congr hE campaign.cuenta_id lead.telefono]
            simpa using hdnc

theorem predLoop_new_records (campaign : Campaign) (now : Int)
    (proto : Nat → ProtoEnv) (mockId : Nat → String) (agents : List Agent)
    (db0 : DB) (n0 : Nat) :
    ∀ (n : Nat) (db : DB) (agentIdx : Nat) (acc : List OriginateResult),
      db.dnc_entries = db0.dnc_entries →
      (∀ r ∈ db.call_records, n0 ≤ r.id → isDnc db0 campaign.cuenta_id r.destino = false) →
      ∀ r ∈ (predLoop campaign now proto mockId agents db n agentIdx acc).2.call_records,
        n0 ≤ r.id → isDnc db0 campaign.cuenta_id r.destino = false := by
  intro n
  induction n with
  | zero => intro db agentIdx acc _ hinv; rw [predLoop_zero]; exact hinv
  | succ n ih =>
    intro db agentIdx acc hE hinv
    cases hl : get_next_lead db campaign now with
    | none => rw [predLoop_succ_none hl]; exact hinv
    | some lead =>
      rw [predLoop_succ_some hl]
      by_cases hdnc : isDnc db campaign.cuenta_id lead.telefono
      · rw [if_pos hdnc]
        exact ih _ _ _ hE hinv
      · rw [if_neg hdnc]
        refine ih _ _ _ ?_ ?_
        · rw [originate_call_dnc_entries]
          exact hE
        · intro r hr hn0
          rcases originate_call_new_records db (proto agentIdx) (mockId agentIdx) now
            campaign.cuenta_id _ lead.telefono (some campaign) (some lead) none none r hr with
            hm | hm
          · obtain ⟨r0, hr0, hid, hdest⟩ := hm
            rw [← hdest]
            exact hinv r0 hr0 (by rw [hid]; exact hn0)
          · rw [hm]
            rw [← isDnc_congr hE campaign.cuenta_id lead.telefono]
            simpa using hdnc

theorem progLoopTrace_nil (campaign : Campaign) (now : Int) (proto : Nat → ProtoEnv)
    (mockId : Nat → String) (db : DB) (k : Nat) (acc : List OriginateResult)
    (drawn : List CampaignLead) :
    progLoopTrace campaign now proto mockId db [] k acc drawn = ((acc, db), drawn) := rfl

theorem progLoopTrace_cons_none {campaign : Campaign} {now : Int} {proto : Nat → ProtoEnv}
    {mockId : Nat → String} {db : DB} {a : Agent} {rest : List Agent} {k : Nat}
    {acc : List OriginateResult} {drawn : List CampaignLead}
    (hl : get_next_lead db campaign now = none) :
    progLoopTrace campaign now proto mockId db (a :: rest) k acc drawn =
      ((acc, db), drawn) := by
  rw [progLoopTrace, hl]

theorem progLoopTrace_cons_some {campaign : Campaign} {now : Int} {proto : Nat → ProtoEnv}
    {mockId : Nat → String} {db : DB} {a : Agent} {rest : List Agent} {k : Nat}
    {acc : List OriginateResult} {drawn : List CampaignLead} {lead : CampaignLead}
    (hl : get_next_lead db campaign now = some lead) :
    progLoopTrace campaign now proto mockId db (a :: rest) k acc drawn =
      if isDnc db campaign.cuenta_id lead.telefono then
        progLoopTrace campaign now proto mockId (markLeadDnc db lead.id) rest k acc
          (drawn ++ [lead])
      else
        progLoopTrace campaign now proto mockId
          (originate_call db (proto k) (mockId k) now campaign.cuenta_id a lead.telefono
            (some campaign) (some lead) none none).2 rest (k + 1)
          (acc ++ [(originate_call db (proto k) (mockId k) now campaign.cuenta_id a
            lead.telefono (some campaign) (some lead) none none).1]) (drawn ++ [lead]) := by
  rw [progLoopTrace, hl]

theorem predLoopTrace_zero (campaign : Campaign) (now : Int) (proto : Nat → ProtoEnv)
    (mockId : Nat → String) (agents : List Agent) (db : DB) (agentIdx : Nat)
    (acc : List OriginateResult) (drawn : List CampaignLead) :
    predLoopTrace campaign now proto mockId agents db 0 agentIdx acc drawn =
      ((acc, db), drawn) := rfl

theorem predLoopTrace_succ_none {campaign : Campaign} {now : Int} {proto : Nat → ProtoEnv}
    {mockId : Nat → String} {agents : List Agent} {db : DB} {n agentIdx : Nat}
    {acc : List OriginateResult} {drawn : List CampaignLead}
    (hl : get_next_lead db campaign now = none) :
    predLoopTrace campaign now proto mockId agents db (n + 1) agentIdx acc drawn =
      ((acc, db), drawn) := by
  rw [predLoopTrace, hl]

theorem predLoopTrace_succ_some {campaign : Campaign} {now : Int} {proto : Nat → ProtoEnv}
    {mockId : Nat → String} {agents : List Agent} {db : DB} {n agentIdx : Nat}
    {acc : List OriginateResult} {drawn : List CampaignLead} {lead : CampaignLead}
    (hl : get_next_lead db campaign now = some lead) :
    predLoopTrace campaign now proto mockId agents db (n + 1) agentIdx acc drawn =
      if isDnc db campaign.cuenta_id lead.telefono then
        predLoopTrace campaign now proto mockId agents (markLeadDnc db lead.id) n agentIdx acc
          (drawn ++ [lead])
      else
        predLoopTrace campaign now proto mockId agents
          (originate_call db (proto agentIdx) (mockId agentIdx) now campaign.cuenta_id
            (agents.getD (agentIdx % agents.length) default) lead.telefono
            (some campaign) (some lead) none none).2 n (agentIdx + 1)
          (acc ++ [(originate_call db (proto agentIdx) (mockId agentIdx) now campaign.cuenta_id
            (agents.getD (agentIdx % agents.length) default) lead.telefono
            (some campaign) (some lead) none none).1]) (drawn ++ [lead]) := by
  rw [predLoopTrace, hl]

theorem progLoopTrace_marks (campaign : Campaign) (now : Int)
    (proto : Nat → ProtoEnv) (mockId : Nat → String) (db0 : DB) :
    ∀ (agents : List Agent) (db : DB) (k : Nat) (acc : List OriginateResult)
      (drawn : List CampaignLead),
      db.dnc_entries = db0.dnc_entries →
      ∀ l ∈ (progLoopTrace campaign now proto mockId db agents k acc drawn).2,
        l ∈ drawn ∨ (isDnc db0 campaign.cuenta_id l.telefono = true →
          leadMarked (progLoop campaign now proto mockId db agents k acc).2 l.id) := by
  intro agents
  induction agents with
  | nil =>
    intro db k acc drawn _ l hl
    rw [progLoopTrace_nil] at hl
    exact Or.inl hl
  | cons a rest ih =>
    intro db k acc drawn hE l hl
    cases hgl : get_next_lead db campaign now with
    | none =>
      rw [progLoopTrace_cons_none hgl] at hl
      exact Or.inl hl
    | some lead =>
      rw [progLoopTrace_cons_some hgl] at hl
      rw [progLoop_cons_some hgl]
      by_cases hdnc : isDnc db campaign.cuenta_id lead.telefono
      · rw [if_pos hdnc] at hl
        rw [if_pos hdnc]
        rcases ih (markLeadDnc db lead.id) _ _ _ hE l hl with hmem | himp
        · rcases List.mem_append.mp hmem with hmem | hmem
          · exact Or.inl hmem
          · rw [List.mem_singleton.mp hmem]
            refine Or.inr (fun _ => ?_)
            exact progLoop_preserves_marked campaign now proto mockId lead.id rest
              (markLeadDnc db lead.id) k acc (markLeadDnc_marks db lead.id)
        · exact Or.inr himp
      · rw [if_neg hdnc] at hl
        rw [if_neg hdnc]
        have hE2 : (originate_call db (proto k) (mockId k) now campaign.cuenta_id a
            lead.telefono (some campaign) (some lead) none none).2.dnc_entries =
            db0.dnc_entries := by
          rw [originate_call_dnc_entries]
          exact hE
        rcases ih _ _ _ _ hE2 l hl with hmem | himp
        · rcases List.mem_append.mp hmem with hmem | hmem
          · exact Or.inl hmem
          · rw [List.mem_singleton.mp hmem]
            refine Or.inr (fun habs => ?_)
            rw [← isDnc_congr hE campaign.cuenta_id lead.telefono] at habs
            exact absurd habs (by simpa using hdnc)
        · exact Or.inr himp

theorem predLoopTrace_marks (campaign : Campaign) (now : Int)
    (proto : Nat → ProtoEnv) (mockId : Nat → String) (agents : List Agent) (db0 : DB) :
    ∀ (n : Nat) (db : DB) (agentIdx : Nat) (acc : List OriginateResult)
      (drawn : List CampaignLead),
      db.dnc_entries = db0.dnc_entries →
      ∀ l ∈ (predLoopTrace campaign now proto mockId agents db n agentIdx acc drawn).2,
        l ∈ drawn ∨ (isDnc db0 campaign.cuenta_id l.telefono = true →
          leadMarked (predLoop campaign now proto mockId agents db n agentIdx acc).2 l.id) := by
  intro n
  induction n with
  | zero =>
    intro db agentIdx acc drawn _ l hl
    rw [predLoopTrace_zero] at hl
    exact Or.inl hl
  | succ n ih =>
    intro db agentIdx acc drawn hE l hl
    cases hgl : get_next_lead db campaign now with
    | none =>
      rw [predLoopTrace_succ_none hgl] at hl
      exact Or.inl hl
    | some lead =>
      rw [predLoopTrace_succ_some hgl] at hl
      rw [predLoop_succ_some hgl]
      by_cases hdnc : isDnc db campaign.cuenta_id lead.telefono
      · rw [if_pos hdnc] at hl
        rw [if_pos hdnc]
        rcases ih (markLeadDnc db lead.id) _ _ _ hE l hl with hmem | himp
        · rcases List.mem_append.mp hmem with hmem | hmem
          · exact Or.inl hmem
          · rw [List.mem_singleton.mp hmem]
            refine Or.inr (fun _ => ?_)
            exact predLoop_preserves_marked campaign now proto mockId agents lead.id n
              (markLeadDnc db lead.id) agentIdx acc (markLeadDnc_marks db lead.id)
        · exact Or.inr himp
      · rw [if_neg hdnc] at hl
        rw [if_neg hdnc]
        have hE2 : (originate_call db (proto agentIdx) (mockId agentIdx) now campaign.cuenta_id
            (agents.getD (agentIdx % agents.length) default) lead.telefono
            (some campaign) (some lead) none none).2.dnc_entries = db0.dnc_entries := by
          rw [originate_call_dnc_entries]
          exact hE
        rcases ih _ _ _ _ hE2 l hl with hmem | himp
        · rcases List.mem_append.mp hmem with hmem | hmem
          · exact Or.inl hmem
          · rw [List.mem_singleton.mp hmem]
            refine Or.inr (fun habs => ?_)
            rw [← isDnc_congr hE campaign.cuenta_id lead.telefono] at habs
            exact absurd habs (by simpa using hdnc)
        · exact Or.inr himp

/-- C2 witness: the origination contract at the concrete scenario database,
where node resolution finds the tenant's active node. -/
theorem originate_call_contract_witness :
    OriginateContract dbProg protoOk "m" 0 1 agentA "p10" (some campA)
      (some (leadN 10 "p10")) none none :=
  originate_call_contract dbProg protoOk "m" 0 1 agentA "p10" (some campA)
    (some (leadN 10 "p10")) none none nodeA (by decide)

/-- C1: dialing a number on the tenant's DNC list is always refused — a
manual call on a found lead of a found campaign by a dialable agent
returns a non-success result, creates no CallRecord and marks the lead
dnc; in a progressive or predictive tick, provided every pre-existing
CallRecord id is below the id counter, every CallRecord of the resulting
database whose id is at or above the counter (i.e. created during the
tick) has a destination not on the tenant's DNC list; and every candidate
drawn from the lead queue during the tick whose phone is on the tenant's
DNC list ends the tick marked dnc. -/
theorem dnc_blocking_spec :
    (∀ (db : DB) (proto : ProtoEnv) (mockId : String) (now : Int)
        (cuenta_id agent_id campaign_lead_id : Nat) (agent : Agent) (cl : CampaignLead)
        (c : Campaign),
      db.agents.find? (fun a => decide (a.id = agent_id ∧ a.cuenta_id = cuenta_id ∧
        a.activo = true)) = some agent →
      ¬ (agent.estado ≠ AgentStatus.available ∧ agent.estado ≠ AgentStatus.wrap_up) →
      db.campaign_leads.find? (fun l => decide (l.id = campaign_lead_id)) = some cl →
      db.campaigns.find? (fun c1 => decide (c1.id = cl.campaign_id)) = some c →
      isDnc db cuenta_id cl.telefono = true →
      (manual_call db proto mockId now cuenta_id agent_id campaign_lead_id).1.success = false ∧
      (manual_call db proto mockId now cuenta_id agent_id campaign_lead_id).2.call_records =
        db.call_records ∧
      leadMarked (manual_call db proto mockId now cuenta_id agent_id campaign_lead_id).2
        cl.id) ∧
    (∀ (db : DB) (campaign : Campaign) (now : Int) (localTime localDow : Nat)
        (proto : Nat → ProtoEnv) (mockId : Nat → String),
      (∀ r ∈ db.call_records, r.id < db.next_id) →
      ∀ r ∈ (run_progressive_dialer db campaign now localTime localDow proto
          mockId).2.call_records,
        db.next_id ≤ r.id → isDnc db campaign.cuenta_id r.destino = false) ∧
    (∀ (db : DB) (campaign : Campaign) (now : Int) (localTime localDow : Nat)
        (proto : Nat → ProtoEnv) (mockId : Nat → String),
      ∀ l ∈ progressiveDrawn db campaign now localTime localDow proto mockId,
        isDnc db campaign.cuenta_id l.telefono = true →
        leadMarked (run_progressive_dialer db campaign now localTime localDow proto
          mockId).2 l.id) ∧
    (∀ (db : DB) (campaign : Campaign) (now : Int) (localTime localDow : Nat)
        (proto : Nat → ProtoEnv) (mockId : Nat → String),
      (∀ r ∈ db.call_records, r.id < db.next_id) →
      ∀ r ∈ (run_predictive_dialer db campaign now localTime localDow proto
          mockId).2.call_records,
        db.next_id ≤ r.id → isDnc db campaign.cuenta_id r.destino = false) ∧
    (∀ (db : DB) (campaign : Campaign) (now : Int) (localTime localDow : Nat)
        (proto : Nat → ProtoEnv) (mockId : Nat → String),
      ∀ l ∈ predictiveDrawn db campaign now localTime localDow proto mockId,
        isDnc db campaign.cuenta_id l.telefono = true →
        leadMarked (run_predictive_dialer db campaign now localTime localDow proto
          mockId).2 l.id) := by
  refine ⟨?_, ?_, ?_, ?_, ?_⟩
  · intro db proto mockId now cuenta_id agent_id campaign_lead_id agent cl c
      hA hstate hcl hC hdnc
    rw [manual_call_agent_some hA, manual_call_with_agent_lead_some hstate hcl,
      manual_call_with_lead_some hC, if_pos hdnc]
    exact ⟨rfl, rfl, markLeadDnc_marks db cl.id⟩
  · intro db campaign now localTime localDow proto mockId hfresh
    have hbase : ∀ r ∈ db.call_records, db.next_id ≤ r.id →
        isDnc db campaign.cuenta_id r.destino = false :=
      fun r hr hn0 => absurd (hfresh r hr) (Nat.not_lt.mpr hn0)
    rw [run_progressive_dialer]
    by_cases h1 : campaign.estado ≠ CampaignStatus.running
    · rw [if_pos h1]; intro r hr; exact hbase r hr
    · rw [if_neg h1]
      by_cases h2 : (!is_campaign_in_schedule campaign localTime localDow) = true
      · rw [if_pos h2]; intro r hr; exact hbase r hr
      · rw [if_neg h2]
        by_cases h3 : (get_available_agents db campaign.id).isEmpty = true
        · rw [if_pos h3]; intro r hr; exact hbase r hr
        · rw [if_neg h3]
          by_cases h4 : campaign.max_concurrent_calls ≤ get_active_calls_count db campaign.id
          · rw [if_pos h4]; intro r hr; exact hbase r hr
          · rw [if_neg h4]
            exact progLoop_new_records campaign now proto mockId db db.next_id _ db 0 []
              rfl hbase
  · intro db campaign now localTime localDow proto mockId l hl hdnc
    rw [progressiveDrawn] at hl
    rw [run_progressive_dialer]
    by_cases h1 : campaign.estado ≠ CampaignStatus.running
    · rw [if_pos h1] at hl; simp at hl
    · rw [if_neg h1] at hl; rw [if_neg h1]
      by_cases h2 : (!is_campaign_in_schedule campaign localTime localDow) = true
      · rw [if_pos h2] at hl; simp at hl
      · rw [if_neg h2] at hl; rw [if_neg h2]
        by_cases h3 : (get_available_agents db campaign.id).isEmpty = true
        · rw [if_pos h3] at hl; simp at hl
        · rw [if_neg h3] at hl; rw [if_neg h3]
          by_cases h4 : campaign.max_concurrent_calls ≤ get_active_calls_count db campaign.id
          · rw [if_pos h4] at hl; simp at hl
          · rw [if_neg h4] at hl; rw [if_neg h4]
            rcases progLoopTrace_marks campaign now proto mockId db _ db 0 [] [] rfl l hl
              with hmem | himp
            · simp at hmem
            · exact himp hdnc
  · intro db campaign now localTime localDow proto mockId hfresh
    have hbase : ∀ r ∈ db.call_records, db.next_id ≤ r.id →
        isDnc db campaign.cuenta_id r.destino = false :=
      fun r hr hn0 => absurd (hfresh r hr) (Nat.not_lt.mpr hn0)
    rw [run_predictive_dialer]
    by_cases h1 : campaign.estado ≠ CampaignStatus.running
    · rw [if_pos h1]; intro r hr; exact hbase r hr
    · rw [if_neg h1]
      by_cases h2 : (!is_campaign_in_schedule campaign localTime localDow) = true
      · rw [if_pos h2]; intro r hr; exact hbase r hr
      · rw [if_neg h2]
        by_cases h3 : (get_available_agents db campaign.id).length = 0
        · rw [if_pos h3]; intro r hr; exact hbase r hr
        · rw [if_neg h3]
          by_cases h4 : (min (pyInt (((get_available_agents db campaign.id).length : ℚ) *
              campaign.predictive_factor) - (get_active_calls_count db campaign.id : Int))
              ((campaign.max_concurrent_calls : Int) -
                (get_active_calls_count db campaign.id : Int))) ≤ 0
          · rw [if_pos h4]; intro r hr; exact hbase r hr
          · rw [if_neg h4]
            exact predLoop_new_records campaign now proto mockId _ db db.next_id _ db 0 []
              rfl hbase
  · intro db campaign now localTime localDow proto mockId l hl hdnc
    rw [predictiveDrawn] at hl
    rw [run_predictive_dialer]
    by_cases h1 : campaign.estado ≠ CampaignStatus.running
    · rw [if_pos h1] at hl; simp at hl
    · rw [if_neg h1] at hl; rw [if_neg h1]
      by_cases h2 : (!is_campaign_in_schedule campaign localTime localDow) = true
      · rw [if_pos h2] at hl; simp at hl
      · rw [if_neg h2] at hl; rw [if_neg h2]
        by_cases h3 : (get_available_agents db campaign.id).length = 0
        · rw [if_pos h3] at hl; simp at hl
        · rw [if_neg h3] at hl; rw [if_neg h3]
          by_cases h4 : (min (pyInt (((get_available_agents db campaign.id).length : ℚ) *
              campaign.predictive_factor) - (get_active_calls_count db campaign.id : Int))
              ((campaign.max_concurrent_calls : Int) -
                (get_active_calls_count db campaign.id : Int))) ≤ 0
          · rw [if_pos h4] at hl; simp at hl
          · rw [if_neg h4] at hl; rw [if_neg h4]
            rcases predLoopTrace_marks campaign now proto mockId _ db _ db 0 [] [] rfl l hl
              with hmem | himp
            · simp at hmem
            · exact himp hdnc

/-- C1 witness: on the concrete database whose first lead's phone is
blacklisted and whose call-record table is empty (so every record id is
below the counter), the manual call refuses without creating a CallRecord
and marks the lead dnc; in both automatic ticks every record with id at or
above the counter has a destination off the DNC list, and the blacklisted
lead — drawn from the queue during each tick — ends both ticks marked
dnc. -/
theorem dnc_blocking_spec_witness :
    ((manual_call dbDnc protoOk "m" 0 1 2 10).1.success = false ∧
     (manual_call dbDnc protoOk "m" 0 1 2 10).2.call_records = dbDnc.call_records ∧
     leadMarked (manual_call dbDnc protoOk "m" 0 1 2 10).2 (leadN 10 "p10").id) ∧
    ((run_progressive_dialer dbDnc campA 0 0 1 protoOkF mockF).2.call_records.all
      (fun r => decide (dbDnc.next_id ≤ r.id →
        isDnc dbDnc campA.cuenta_id r.destino = false)) = true) ∧
    leadMarked (run_progressive_dialer dbDnc campA 0 0 1 protoOkF mockF).2
      (leadN 10 "p10").id ∧
    ((run_predictive_dialer dbDnc campA 0 0 1 protoOkF mockF).2.call_records.all
      (fun r => decide (dbDnc.next_id ≤ r.id →
        isDnc dbDnc campA.cuenta_id r.destino = false)) = true) ∧
    leadMarked (run_predictive_dialer dbDnc campA 0 0 1 protoOkF mockF).2
      (leadN 10 "p10").id := by
  refine ⟨dnc_blocking_spec.1 dbDnc protoOk "m" 0 1 2 10 agentA (leadN 10 "p10") campA
      (by decide) (by decide) (by decide) (by decide) (by decide), ?_, ?_, ?_, ?_⟩
  · rw [List.all_eq_true]
    intro r hr
    exact decide_eq_true (dnc_blocking_spec.2.1 dbDnc campA 0 0 1 protoOkF mockF
      (by decide) r hr)
  · exact dnc_blocking_spec.2.2.1 dbDnc campA 0 0 1 protoOkF mockF (leadN 10 "p10")
      (by decide) (by decide)
  · rw [List.all_eq_true]
    intro r hr
    exact decide_eq_true (dnc_blocking_spec.2.2.2.1 dbDnc campA 0 0 1 protoOkF mockF
      (by decide) r hr)
  · exact dnc_blocking_spec.2.2.2.2 dbDnc campA 0 0 1 protoOkF mockF (leadN 10 "p10")
      (by
        rw [predictiveDrawn]
        rw [if_neg (by decide)]
        rw [if_neg (by decide)]
        rw [if_neg (by decide)]
        have hlen : (get_available_agents dbDnc campA.id).length = 2 := by decide
        rw [hlen]
        have h21 : ((2 : Nat) : ℚ) * campA.predictive_factor = (2 : ℚ) := by
          norm_num [campA]
        rw [h21]
        rw [if_neg (by decide)]
        decide)
      (by decide)

end CentroControl
